import Mathlib

/-!
Verification of the typeorm-query-utils condition compiler and composer.

The development shallowly embeds the JavaScript/TypeScript sources:
  - parse-condition.ts        (function parseCondition, the Condition Compiler)
  - qb-apply-where-condition.ts and the recursive applyWhereConditionsQB
    (the Boolean Composer)
  - qb-apply-sort-order.ts    (function applySortOrderQB)

JavaScript runtime values are modelled by the inductive type JSVal; machine
strings are Lean strings; the per-call uuid is an explicit parameter; code
that throws is modelled with Except carrying the literal error message.
-/

/-- Model of a JavaScript runtime value as far as the library inspects it:
primitive strings, numbers (payloads opaque to the library, modelled as Int),
booleans, Date instances (payload opaque, modelled as Int), null, undefined,
arrays and plain objects.  Plain objects carry their own enumerable
string-keyed properties in insertion order, as Object.entries enumerates
them. -/
inductive JSVal where
  | str (s : String)
  | num (n : Int)
  | bool (b : Bool)
  | date (t : Int)
  | null
  | undef
  | arr (xs : List JSVal)
  | obj (kvs : List (String × JSVal))

/-- Models the JavaScript test (typeof v === 'object'): true for plain
objects, arrays, Date instances and null. -/
def JSVal.typeofObject : JSVal → Bool
  | .obj _ => true
  | .arr _ => true
  | .date _ => true
  | .null => true
  | _ => false

/-- Models Array.isArray. -/
def JSVal.isArray : JSVal → Bool
  | .arr _ => true
  | _ => false

/-- Models (v === undefined or v === null). -/
def JSVal.isNullish : JSVal → Bool
  | .null => true
  | .undef => true
  | _ => false

/-- Models Object.entries: the own enumerable string-keyed properties of a
plain object; a Date instance has none; other values contribute none on the
paths the library reaches. -/
def JSVal.jsEntries : JSVal → List (String × JSVal)
  | .obj kvs => kvs
  | _ => []

/-- Models the elements of an array value (empty for non-arrays). -/
def JSVal.arrElems : JSVal → List JSVal
  | .arr xs => xs
  | _ => []

/-- Models strict equality of a value against a fixed string literal, as in
(condition === '$isNull'). -/
def JSVal.isStrLit (v : JSVal) (s : String) : Bool :=
  match v with
  | .str t => t = s
  | _ => false

/-- Models strict equality of a value against a fixed number literal, as in
(value === 1). -/
def JSVal.isNumLit (v : JSVal) (n : Int) : Bool :=
  match v with
  | .num m => m = n
  | _ => false

/-- Models (typeof item === 'string' or typeof item === 'number' or
item instanceof Date), the element test used by the array-valued operators. -/
def JSVal.isNumStrDate : JSVal → Bool
  | .str _ => true
  | .num _ => true
  | .date _ => true
  | _ => false

/-- Models (typeof v === 'string' or 'number' or 'boolean' or
v instanceof Date), the operand test of the equality operators and the
bare-scalar branch. -/
def JSVal.isScalarEqVal : JSVal → Bool
  | .str _ => true
  | .num _ => true
  | .bool _ => true
  | .date _ => true
  | _ => false

/-- Models JavaScript string coercion of a value, as performed by template
literal interpolation.  Only the string case is ever exercised by validated
fragment-mode calls; the renderings of dates, arrays and plain objects are
stated approximations (no claim depends on them, and the library only
interpolates a validated non-empty string alias on the fragment paths). -/
def jsString : JSVal → String
  | .str s => s
  | .num n => toString n
  | .bool b => if b then ("true") else ("false")
  | .null => "null"
  | .undef => "undefined"
  | .date t => "Date(" ++ toString t ++ ")"
  | .arr _ => "Array"
  | .obj _ => "[object Object]"

mutual
/-- Models JSON.stringify on the values the json operators serialize.  String
escaping and the exact Date serialization are elided (stated approximation;
no claim depends on them); undefined inside arrays serializes to null as in
JavaScript. -/
def jsonStringify : JSVal → String
  | .str s => "\"" ++ s ++ "\""
  | .num n => toString n
  | .bool b => if b then ("true") else ("false")
  | .null => "null"
  | .undef => "null"
  | .date t => "\"" ++ toString t ++ "\""
  | .arr xs => "[" ++ jsonStringifyList xs ++ "]"
  | .obj kvs => "\x7b" ++ jsonStringifyEntries kvs ++ "\x7d"
termination_by v => sizeOf v

/-- JSON serialization of array elements, comma separated. -/
def jsonStringifyList : List JSVal → String
  | [] => ""
  | [x] => jsonStringify x
  | x :: rest => jsonStringify x ++ "," ++ jsonStringifyList rest
termination_by l => sizeOf l

/-- JSON serialization of object entries, comma separated. -/
def jsonStringifyEntries : List (String × JSVal) → String
  | [] => ""
  | [(k, v)] => "\"" ++ k ++ "\":" ++ jsonStringify v
  | (k, v) :: rest => "\"" ++ k ++ "\":" ++ jsonStringify v ++ "," ++ jsonStringifyEntries rest
termination_by l => sizeOf l
end

/-- Removes the first occurrence of the dollar character from a character
list; helper for replaceFirstDollar. -/
def removeFirstDollarAux : List Char → List Char
  | [] => []
  | c :: cs => if c = '$' then cs else c :: removeFirstDollarAux cs

/-- Models conditionOperator.replace of the first dollar sign with the empty
string (the regex has no global flag, so only the first occurrence is
removed). -/
def replaceFirstDollar (s : String) : String :=
  String.mk (removeFirstDollarAux s.data)

/-- The generated parameter name: run-unique id, operator-name segment and
field alias joined by underscores.  Models the template
uniqueId + underscore + opSeg + underscore + alias used throughout
parseCondition. -/
def paramName (uid opSeg aS : String) : String :=
  uid ++ "_" ++ opSeg ++ "_" ++ aS

/-- The fragment encoding returned in qb mode: a query string and an optional
parameters object (the source omits the parameters key for the null checks). -/
structure Fragment where
  query : String
  parameters : Option (List (String × JSVal))

/-- The abstract operator values returned in find mode, mirroring the typeorm
FindOperator constructors used by the source.  Raw operators always apply the
template (fun alias => alias ++ tail) in the source, so they are modelled by
the tail string together with their parameter mapping. -/
inductive FindOp where
  | equal (v : JSVal)
  | notOp (f : FindOp)
  | inList (vs : List JSVal)
  | isNull
  | moreThan (v : JSVal)
  | moreThanOrEqual (v : JSVal)
  | lessThan (v : JSVal)
  | lessThanOrEqual (v : JSVal)
  | between (lo hi : JSVal)
  | like (s : String)
  | ilike (s : String)
  | raw (tail : String) (params : List (String × JSVal))

/-- Result of parseCondition: a fragment in qb mode, an abstract operator in
find mode. -/
inductive ParseResult where
  | qbRes (f : Fragment)
  | findRes (op : FindOp)

/-- Models the alias validation test
(typeof a !== 'string' or a.trim().length === 0): a string trims to the
empty string exactly when all its characters are whitespace. -/
def aliasInvalid : JSVal → Bool
  | .str s => s.data.all (fun c => c.isWhitespace)
  | _ => true

/-- JS object keys delivered by Object.entries are always strings (numeric
property keys are coerced to strings by the runtime), so the source test
(typeof conditionOperator !== 'string') can never be true; the model records
this fact of the JavaScript semantics. -/
def keyIsString (_k : String) : Bool := true

/-- Case '$in' of the operator switch. -/
def opIn (uid mode aS pp : String) (val : JSVal) : Except String ParseResult :=
  if val.isArray ∧ val.arrElems.all JSVal.isNumStrDate then
    if mode = "qb" then
      .ok (.qbRes ⟨aS ++ " IN (:..." ++ paramName uid pp aS ++ ")",
        some [(paramName uid pp aS, val)]⟩)
    else .ok (.findRes (.inList val.arrElems))
  else .error ("$IN_OPERATOR_MUST_HAVE_AN_ARRAY_OF_STRINGS_OR_NUMBERS")

/-- Case '$notIn' of the operator switch; its failure message is the
same literal as for '$in' in the source. -/
def opNotIn (uid mode aS pp : String) (val : JSVal) : Except String ParseResult :=
  if val.isArray ∧ val.arrElems.all JSVal.isNumStrDate then
    if mode = "qb" then
      .ok (.qbRes ⟨aS ++ " NOT IN (:..." ++ paramName uid pp aS ++ ")",
        some [(paramName uid pp aS, val)]⟩)
    else .ok (.findRes (.notOp (.inList val.arrElems)))
  else .error ("$IN_OPERATOR_MUST_HAVE_AN_ARRAY_OF_STRINGS_OR_NUMBERS")

/-- Case '$gte' of the operator switch. -/
def opGte (uid mode aS pp : String) (val : JSVal) : Except String ParseResult :=
  if val.isNumStrDate then
    if mode = "qb" then
      .ok (.qbRes ⟨aS ++ " >= :" ++ paramName uid pp aS, some [(paramName uid pp aS, val)]⟩)
    else .ok (.findRes (.moreThanOrEqual val))
  else .error ("$GTE_OPERATOR_MUST_HAVE_A_NUMBER_STRING_OR_DATE")

/-- Case '$lte' of the operator switch. -/
def opLte (uid mode aS pp : String) (val : JSVal) : Except String ParseResult :=
  if val.isNumStrDate then
    if mode = "qb" then
      .ok (.qbRes ⟨aS ++ " <= :" ++ paramName uid pp aS, some [(paramName uid pp aS, val)]⟩)
    else .ok (.findRes (.lessThanOrEqual val))
  else .error ("$LTE_OPERATOR_MUST_HAVE_A_NUMBER_STRING_OR_DATE")

/-- Case '$gt' of the operator switch. -/
def opGt (uid mode aS pp : String) (val : JSVal) : Except String ParseResult :=
  if val.isNumStrDate then
    if mode = "qb" then
      .ok (.qbRes ⟨aS ++ " > :" ++ paramName uid pp aS, some [(paramName uid pp aS, val)]⟩)
    else .ok (.findRes (.moreThan val))
  else .error ("$GT_OPERATOR_MUST_HAVE_A_NUMBER_STRING_OR_DATE")

/-- Case '$lt' of the operator switch. -/
def opLt (uid mode aS pp : String) (val : JSVal) : Except String ParseResult :=
  if val.isNumStrDate then
    if mode = "qb" then
      .ok (.qbRes ⟨aS ++ " < :" ++ paramName uid pp aS, some [(paramName uid pp aS, val)]⟩)
    else .ok (.findRes (.lessThan val))
  else .error ("$LT_OPERATOR_MUST_HAVE_A_NUMBER_STRING_OR_DATE")

/-- Case '$between' of the operator switch. -/
def opBetween (uid mode aS pp : String) (val : JSVal) : Except String ParseResult :=
  match val with
  | .arr [lo, hi] =>
    if lo.isNumStrDate ∧ hi.isNumStrDate then
      if mode = "qb" then
        .ok (.qbRes ⟨aS ++ " BETWEEN :" ++ paramName uid pp aS ++ "_start AND :" ++
            paramName uid pp aS ++ "_end",
          some [(paramName uid pp aS ++ "_start", lo), (paramName uid pp aS ++ "_end", hi)]⟩)
      else .ok (.findRes (.between lo hi))
    else .error ("$BETWEEN_OPERATOR_MUST_HAVE_AN_ARRAY_WITH_TWO_VALUES")
  | _ => .error ("$BETWEEN_OPERATOR_MUST_HAVE_AN_ARRAY_WITH_TWO_VALUES")

/-- Case '$notBetween' of the operator switch. -/
def opNotBetween (uid mode aS pp : String) (val : JSVal) : Except String ParseResult :=
  match val with
  | .arr [lo, hi] =>
    if lo.isNumStrDate ∧ hi.isNumStrDate then
      if mode = "qb" then
        .ok (.qbRes ⟨aS ++ " NOT BETWEEN :" ++ paramName uid pp aS ++ "_start AND :" ++
            paramName uid pp aS ++ "_end",
          some [(paramName uid pp aS ++ "_start", lo), (paramName uid pp aS ++ "_end", hi)]⟩)
      else .ok (.findRes (.notOp (.between lo hi)))
    else .error ("$NOT_BETWEEN_OPERATOR_MUST_HAVE_AN_ARRAY_WITH_TWO_VALUES")
  | _ => .error ("$NOT_BETWEEN_OPERATOR_MUST_HAVE_AN_ARRAY_WITH_TWO_VALUES")

/-- Case '$contains' of the operator switch. -/
def opContains (uid mode aS pp : String) (val : JSVal) : Except String ParseResult :=
  match val with
  | .str s =>
    if mode = "qb" then
      .ok (.qbRes ⟨aS ++ " LIKE :" ++ paramName uid pp aS,
        some [(paramName uid pp aS, .str ("%" ++ s ++ "%"))]⟩)
    else .ok (.findRes (.like ("%" ++ s ++ "%")))
  | _ => .error ("$CONTAINS_OPERATOR_MUST_HAVE_A_STRING_VALUE")

/-- Case '$notContains' of the operator switch. -/
def opNotContains (uid mode aS pp : String) (val : JSVal) : Except String ParseResult :=
  match val with
  | .str s =>
    if mode = "qb" then
      .ok (.qbRes ⟨aS ++ " NOT LIKE :" ++ paramName uid pp aS,
        some [(paramName uid pp aS, .str ("%" ++ s ++ "%"))]⟩)
    else .ok (.findRes (.notOp (.like ("%" ++ s ++ "%"))))
  | _ => .error ("$NOT_CONTAINS_OPERATOR_MUST_HAVE_A_STRING_VALUE")

/-- Case '$iContains' of the operator switch. -/
def opIContains (uid mode aS pp : String) (val : JSVal) : Except String ParseResult :=
  match val with
  | .str s =>
    if mode = "qb" then
      .ok (.qbRes ⟨aS ++ " ILIKE :" ++ paramName uid pp aS,
        some [(paramName uid pp aS, .str ("%" ++ s ++ "%"))]⟩)
    else .ok (.findRes (.ilike ("%" ++ s ++ "%")))
  | _ => .error ("$I_CONTAINS_OPERATOR_MUST_HAVE_A_STRING_VALUE")

/-- Case '$notIContains' of the operator switch. -/
def opNotIContains (uid mode aS pp : String) (val : JSVal) : Except String ParseResult :=
  match val with
  | .str s =>
    if mode = "qb" then
      .ok (.qbRes ⟨aS ++ " NOT ILIKE :" ++ paramName uid pp aS,
        some [(paramName uid pp aS, .str ("%" ++ s ++ "%"))]⟩)
    else .ok (.findRes (.notOp (.ilike ("%" ++ s ++ "%"))))
  | _ => .error ("$NOT_I_CONTAINS_OPERATOR_MUST_HAVE_A_STRING_VALUE")

/-- Case '$startsWith' of the operator switch. -/
def opStartsWith (uid mode aS pp : String) (val : JSVal) : Except String ParseResult :=
  match val with
  | .str s =>
    if mode = "qb" then
      .ok (.qbRes ⟨aS ++ " LIKE :" ++ paramName uid pp aS,
        some [(paramName uid pp aS, .str (s ++ "%"))]⟩)
    else .ok (.findRes (.like (s ++ "%")))
  | _ => .error ("$STARTS_WITH_OPERATOR_MUST_HAVE_A_STRING_VALUE")

/-- Case '$notStartsWith' of the operator switch. -/
def opNotStartsWith (uid mode aS pp : String) (val : JSVal) : Except String ParseResult :=
  match val with
  | .str s =>
    if mode = "qb" then
      .ok (.qbRes ⟨aS ++ " NOT LIKE :" ++ paramName uid pp aS,
        some [(paramName uid pp aS, .str (s ++ "%"))]⟩)
    else .ok (.findRes (.notOp (.like (s ++ "%"))))
  | _ => .error ("$NOT_STARTS_WITH_OPERATOR_MUST_HAVE_A_STRING_VALUE")

/-- Case '$endsWith' of the operator switch. -/
def opEndsWith (uid mode aS pp : String) (val : JSVal) : Except String ParseResult :=
  match val with
  | .str s =>
    if mode = "qb" then
      .ok (.qbRes ⟨aS ++ " LIKE :" ++ paramName uid pp aS,
        some [(paramName uid pp aS, .str ("%" ++ s))]⟩)
    else .ok (.findRes (.like ("%" ++ s)))
  | _ => .error ("$ENDS_WITH_OPERATOR_MUST_HAVE_A_STRING_VALUE")

/-- Case '$notEndsWith' of the operator switch. -/
def opNotEndsWith (uid mode aS pp : String) (val : JSVal) : Except String ParseResult :=
  match val with
  | .str s =>
    if mode = "qb" then
      .ok (.qbRes ⟨aS ++ " NOT LIKE :" ++ paramName uid pp aS,
        some [(paramName uid pp aS, .str ("%" ++ s))]⟩)
    else .ok (.findRes (.notOp (.like ("%" ++ s))))
  | _ => .error ("$NOT_ENDS_WITH_OPERATOR_MUST_HAVE_A_STRING_VALUE")

/-- Case '$equalTo' of the operator switch. -/
def opEqualTo (uid mode aS pp : String) (val : JSVal) : Except String ParseResult :=
  if val.isScalarEqVal then
    if mode = "qb" then
      .ok (.qbRes ⟨aS ++ " = :" ++ paramName uid pp aS, some [(paramName uid pp aS, val)]⟩)
    else .ok (.findRes (.equal val))
  else .error ("$EQUAL_TO_OPERATOR_MUST_HAVE_A_STRING_NUMBER_BOOLEAN_OR_DATE_VALUE")

/-- Case '$notEqualTo' of the operator switch. -/
def opNotEqualTo (uid mode aS pp : String) (val : JSVal) : Except String ParseResult :=
  if val.isScalarEqVal then
    if mode = "qb" then
      .ok (.qbRes ⟨aS ++ " != :" ++ paramName uid pp aS, some [(paramName uid pp aS, val)]⟩)
    else .ok (.findRes (.notOp (.equal val)))
  else .error ("$NOT_EQUAL_TO_OPERATOR_MUST_HAVE_A_STRING_NUMBER_BOOLEAN_OR_DATE_VALUE")

/-- Case '$regex' of the operator switch. -/
def opRegex (uid mode aS pp : String) (val : JSVal) : Except String ParseResult :=
  match val with
  | .str _ =>
    if mode = "qb" then
      .ok (.qbRes ⟨aS ++ " ~ :" ++ paramName uid pp aS, some [(paramName uid pp aS, val)]⟩)
    else .ok (.findRes (.raw (" ~ :" ++ paramName uid pp aS) [(paramName uid pp aS, val)]))
  | _ => .error ("$REGEX_OPERATOR_MUST_HAVE_A_STRING_VALUE")

/-- Case '$notRegex' of the operator switch. -/
def opNotRegex (uid mode aS pp : String) (val : JSVal) : Except String ParseResult :=
  match val with
  | .str _ =>
    if mode = "qb" then
      .ok (.qbRes ⟨aS ++ " !~ :" ++ paramName uid pp aS, some [(paramName uid pp aS, val)]⟩)
    else .ok (.findRes (.raw (" !~ :" ++ paramName uid pp aS) [(paramName uid pp aS, val)]))
  | _ => .error ("$NOT_REGEX_OPERATOR_MUST_HAVE_A_STRING_VALUE")

/-- Case '$regexi' of the operator switch. -/
def opRegexi (uid mode aS pp : String) (val : JSVal) : Except String ParseResult :=
  match val with
  | .str _ =>
    if mode = "qb" then
      .ok (.qbRes ⟨aS ++ " ~* :" ++ paramName uid pp aS, some [(paramName uid pp aS, val)]⟩)
    else .ok (.findRes (.raw (" ~* :" ++ paramName uid pp aS) [(paramName uid pp aS, val)]))
  | _ => .error ("$REGEXI_OPERATOR_MUST_HAVE_A_STRING_VALUE")

/-- Case '$notRegexi' of the operator switch. -/
def opNotRegexi (uid mode aS pp : String) (val : JSVal) : Except String ParseResult :=
  match val with
  | .str _ =>
    if mode = "qb" then
      .ok (.qbRes ⟨aS ++ " !~* :" ++ paramName uid pp aS, some [(paramName uid pp aS, val)]⟩)
    else .ok (.findRes (.raw (" !~* :" ++ paramName uid pp aS) [(paramName uid pp aS, val)]))
  | _ => .error ("$NOT_REGEXI_OPERATOR_MUST_HAVE_A_STRING_VALUE")

/-- Case '$jsonContains' of the operator switch: no operand-shape check, the
operand is JSON-serialized and bound. -/
def opJsonContains (uid mode aS pp : String) (val : JSVal) : Except String ParseResult :=
  if mode = "qb" then
    .ok (.qbRes ⟨aS ++ " @> :" ++ paramName uid pp aS,
      some [(paramName uid pp aS, .str (jsonStringify val))]⟩)
  else .ok (.findRes (.raw (" @> :" ++ paramName uid pp aS)
    [(paramName uid pp aS, .str (jsonStringify val))]))

/-- Case '$jsonContained' of the operator switch: no operand-shape check, the
operand is JSON-serialized and bound. -/
def opJsonContained (uid mode aS pp : String) (val : JSVal) : Except String ParseResult :=
  if mode = "qb" then
    .ok (.qbRes ⟨aS ++ " <@ :" ++ paramName uid pp aS,
      some [(paramName uid pp aS, .str (jsonStringify val))]⟩)
  else .ok (.findRes (.raw (" <@ :" ++ paramName uid pp aS)
    [(paramName uid pp aS, .str (jsonStringify val))]))

/-- Case '$jsonEquals' of the operator switch: no operand-shape check, the
operand is JSON-serialized and bound. -/
def opJsonEquals (uid mode aS pp : String) (val : JSVal) : Except String ParseResult :=
  if mode = "qb" then
    .ok (.qbRes ⟨aS ++ " = :" ++ paramName uid pp aS,
      some [(paramName uid pp aS, .str (jsonStringify val))]⟩)
  else .ok (.findRes (.raw (" = :" ++ paramName uid pp aS)
    [(paramName uid pp aS, .str (jsonStringify val))]))

/-- Case '$jsonHasKey' of the operator switch: no operand-shape check; the
parameter name carries the extra key suffix and the operand is bound
unchanged. -/
def opJsonHasKey (uid mode aS pp : String) (val : JSVal) : Except String ParseResult :=
  if mode = "qb" then
    .ok (.qbRes ⟨aS ++ " ? :" ++ paramName uid pp aS ++ "_key",
      some [(paramName uid pp aS ++ "_key", val)]⟩)
  else .ok (.findRes (.raw (" ? :" ++ paramName uid pp aS ++ "_key")
    [(paramName uid pp aS ++ "_key", val)]))

/-- The operator dispatch switch of parseCondition.  uid is the run-unique
id, mode the conditionFor value, aS the string coercion of the field alias,
op the single condition key, val its value (already known non-nullish);
pp is the operator-name segment obtained by deleting the dollar sign. -/
def parseOperator (uid mode aS op : String) (val : JSVal) : Except String ParseResult :=
  let pp := replaceFirstDollar op
  if op = "$in" then opIn uid mode aS pp val
  else if op = "$notIn" then opNotIn uid mode aS pp val
  else if op = "$gte" then opGte uid mode aS pp val
  else if op = "$lte" then opLte uid mode aS pp val
  else if op = "$gt" then opGt uid mode aS pp val
  else if op = "$lt" then opLt uid mode aS pp val
  else if op = "$between" then opBetween uid mode aS pp val
  else if op = "$notBetween" then opNotBetween uid mode aS pp val
  else if op = "$contains" then opContains uid mode aS pp val
  else if op = "$notContains" then opNotContains uid mode aS pp val
  else if op = "$iContains" then opIContains uid mode aS pp val
  else if op = "$notIContains" then opNotIContains uid mode aS pp val
  else if op = "$startsWith" then opStartsWith uid mode aS pp val
  else if op = "$notStartsWith" then opNotStartsWith uid mode aS pp val
  else if op = "$endsWith" then opEndsWith uid mode aS pp val
  else if op = "$notEndsWith" then opNotEndsWith uid mode aS pp val
  else if op = "$equalTo" then opEqualTo uid mode aS pp val
  else if op = "$notEqualTo" then opNotEqualTo uid mode aS pp val
  else if op = "$regex" then opRegex uid mode aS pp val
  else if op = "$notRegex" then opNotRegex uid mode aS pp val
  else if op = "$regexi" then opRegexi uid mode aS pp val
  else if op = "$notRegexi" then opNotRegexi uid mode aS pp val
  else if op = "$jsonContains" then opJsonContains uid mode aS pp val
  else if op = "$jsonContained" then opJsonContained uid mode aS pp val
  else if op = "$jsonEquals" then opJsonEquals uid mode aS pp val
  else if op = "$jsonHasKey" then opJsonHasKey uid mode aS pp val
  else .error ("INVALID_CONDITION_OPERATOR " ++ op)

/-- The body of parseCondition after the three leading validations: the
object branch with its key-count, operator and value checks, then the bare
array, sentinel and bare scalar branches, then the invalid-condition
failure. -/
def parseAfterValidation (uid mode : String) (a cond : JSVal) : Except String ParseResult :=
  if cond.typeofObject ∧ cond.isArray = false then
    if (cond.jsEntries).length ≠ 1 then
      .error ("CONDITION_OBJECT_MUST_HAVE_EXACTLY_ONE_KEY")
    else
      match cond.jsEntries with
      | (op, val) :: _ =>
        if keyIsString op = false then .error ("CONDITION_OPERATOR_MUST_BE_A_STRING")
        else if val.isNullish then .error ("CONDITION_VALUE_CANNOT_BE_UNDEFINED_OR_NULL")
        else parseOperator uid mode (jsString a) op val
      | [] => .error ("CONDITION_OBJECT_MUST_HAVE_EXACTLY_ONE_KEY")
  else if cond.isArray ∧ cond.arrElems.all JSVal.isNumStrDate then
    if mode = "qb" then
      .ok (.qbRes ⟨jsString a ++ " IN (:..." ++ paramName uid ("in") (jsString a) ++ ")",
        some [(paramName uid ("in") (jsString a), cond)]⟩)
    else .ok (.findRes (.inList cond.arrElems))
  else if cond.isStrLit ("$isNull") then
    if mode = "qb" then .ok (.qbRes ⟨jsString a ++ " IS NULL", none⟩)
    else .ok (.findRes .isNull)
  else if cond.isStrLit ("$isNotNull") then
    if mode = "qb" then .ok (.qbRes ⟨jsString a ++ " IS NOT NULL", none⟩)
    else .ok (.findRes (.notOp .isNull))
  else if cond.isScalarEqVal then
    if mode = "qb" then
      .ok (.qbRes ⟨jsString a ++ " = :" ++ paramName uid ("eq") (jsString a),
        some [(paramName uid ("eq") (jsString a), cond)]⟩)
    else .ok (.findRes (.equal cond))
  else .error ("INVALID_CONDITION")

/-- The condition compiler parseCondition.  uid is the uuid generated for the
call (dashes already replaced by underscores), mode the conditionFor value,
a the fieldAlias argument and cond the condition. -/
def parseCondition (uid mode : String) (a cond : JSVal) : Except String ParseResult :=
  if mode ≠ "qb" ∧ mode ≠ "find" then
    .error ("UNSUPPORTED_CONDITION_FOR_VALUE")
  else if aliasInvalid a ∧ mode = "qb" then
    .error ("ALIAS_MUST_BE_A_NON_EMPTY_STRING")
  else if cond.isNullish then
    .error ("CONDITION_CANNOT_BE_UNDEFINED_OR_NULL")
  else parseAfterValidation uid mode a cond

/-- Splits a character list at every occurrence of the separator, as the
JavaScript String split method does: the empty string splits to one empty
part, and separators at the ends produce empty parts. -/
def splitChar (sep : Char) : List Char → List (List Char)
  | [] => [[]]
  | c :: cs =>
    if c = sep then [] :: splitChar sep cs
    else
      match splitChar sep cs with
      | [] => [[c]]
      | p :: ps => (c :: p) :: ps

/-- Models key.split with the dot separator. -/
def jsSplitDot (s : String) : List String :=
  (splitChar '.' s.data).map String.mk

/-- The dynamic field-alias resolution shared by applyWhereConditionsQB and
applySortOrderQB: a dotted name relation.field is split and the first two
parts name the joined relation alias, otherwise the base alias prefixes the
field.  The one-part fallback mirrors JavaScript destructuring, where the
missing second component is undefined; it is unreachable for keys that
contain a dot. -/
def resolveFieldAlias (base key : String) : String :=
  if key.data.contains '.' then
    match jsSplitDot key with
    | relation :: relatedField :: _ => relation ++ "." ++ relatedField
    | relation :: [] => relation ++ ".undefined"
    | [] => "undefined.undefined"
  else base ++ "." ++ key

/-- The sort-order decision of applySortOrderQB: ascending exactly for the
values compared with strict equality in the source, descending otherwise. -/
def orderFor (v : JSVal) : String :=
  if v.isStrLit ("ascend") ∨ v.isStrLit ("asc") ∨ v.isStrLit ("ascending") ∨ v.isNumLit 1 then
    "ASC"
  else "DESC"

/-- Models applySortOrderQB: every entry of the sort record is turned into an
addOrderBy call on the query builder; the builder is modelled by the ordered
list of (field alias, direction) pairs it accumulates. -/
def applySortOrderQB (base : String) (sort : List (String × JSVal)) : List (String × String) :=
  sort.map (fun e => (resolveFieldAlias base e.1, orderFor e.2))

/-- One clause merged into a WhereExpressionBuilder: either a direct
qb.andWhere / qb.orWhere of a query string with its parameters object, or a
bracketed sub-group built by a Brackets callback. -/
inductive SinkEntry where
  | clause (method : String) (query : String) (params : Option (List (String × JSVal)))
  | group (method : String) (inner : List SinkEntry)

mutual
/-- Models the loop of applyWhereConditionsQB over the enumerable fields of
the conditions object.  uids gives the uuid parseCondition generates on its
i-th invocation (a fresh one per leaf, modelling the per-call uuid); the
returned triple is the next uuid index, the final state of the clause sink
and the error message of the exception aborting the loop, if any.  The sink
is an argument because the builder is mutated in place by the source: on an
exception the clauses already merged stay merged. -/
def composeEntries (uids : Nat → String) (i : Nat) (sink : List SinkEntry)
    (method : String) (entries : List (String × JSVal)) (baseAlias : String) :
    Nat × List SinkEntry × Option String :=
  match entries with
  | [] => (i, sink, none)
  | (field, condition) :: rest =>
    if field = "$and" ∨ field = "$or" then
      match condition with
      | .arr ts =>
        match composeForest uids i []
            (if field = "$and" then ("andWhere") else ("orWhere")) ts baseAlias with
        | (j, innerSink, none) =>
          composeEntries uids j (sink ++ [.group method innerSink]) method rest baseAlias
        | (j, _, some e) =>
          (j, sink, some ("Error parsing condition for field \"" ++ field ++ "\": " ++ e))
      | _ =>
        -- condition.forEach on a non-array throws a TypeError, caught and
        -- rewrapped by the same catch block
        (i, sink, some ("Error parsing condition for field \"" ++ field ++ "\": TypeError"))
    else
      match parseCondition (uids i) ("qb") (.str (resolveFieldAlias baseAlias field)) condition with
      | .ok (.qbRes f) =>
        composeEntries uids (i + 1) (sink ++ [.clause method f.query f.parameters]) method rest baseAlias
      | .ok (.findRes _) =>
        -- unreachable: qb mode never returns an abstract operator
        composeEntries uids (i + 1) sink method rest baseAlias
      | .error e =>
        (i + 1, sink, some ("Error parsing condition for field \"" ++ field ++ "\": " ++ e))
termination_by sizeOf entries

/-- Models condition.forEach over the nested filter trees under a logical
key: each element is recursively applied into the bracketed sub-builder. -/
def composeForest (uids : Nat → String) (i : Nat) (sink : List SinkEntry)
    (method : String) (ts : List JSVal) (baseAlias : String) :
    Nat × List SinkEntry × Option String :=
  match ts with
  | [] => (i, sink, none)
  | t :: rest =>
    match composeTree uids i sink method t baseAlias with
    | (j, sink2, none) => composeForest uids j sink2 method rest baseAlias
    | r => r
termination_by sizeOf ts

/-- A recursive applyWhereConditionsQB call on one nested filter tree: the
for..in loop enumerates the own properties of an object tree and nothing for
the primitive trees the claims exercise (enumeration of array indices and
string indices is not modelled). -/
def composeTree (uids : Nat → String) (i : Nat) (sink : List SinkEntry)
    (method : String) (t : JSVal) (baseAlias : String) :
    Nat × List SinkEntry × Option String :=
  match t with
  | .obj kvs => composeEntries uids i sink method kvs baseAlias
  | _ => (i, sink, none)
termination_by sizeOf t
end

/-- The exported entry point applyWhereConditionsQB on a filter-tree object:
iterates the tree and merges each compiled clause into the sink with the
given where method. -/
def applyWhereConditionsQB (uids : Nat → String) (sink : List SinkEntry)
    (method : String) (conditions : JSVal) (baseAlias : String) :
    List SinkEntry × Option String :=
  let r := composeTree uids 0 sink method conditions baseAlias
  (r.2.1, r.2.2)

/-- The set of operator tokens recognized by the switch. -/
def recognizedOp (op : String) : Bool :=
  op == "$in" ||
  op == "$notIn" ||
  op == "$gte" ||
  op == "$lte" ||
  op == "$gt" ||
  op == "$lt" ||
  op == "$between" ||
  op == "$notBetween" ||
  op == "$contains" ||
  op == "$notContains" ||
  op == "$iContains" ||
  op == "$notIContains" ||
  op == "$startsWith" ||
  op == "$notStartsWith" ||
  op == "$endsWith" ||
  op == "$notEndsWith" ||
  op == "$equalTo" ||
  op == "$notEqualTo" ||
  op == "$regex" ||
  op == "$notRegex" ||
  op == "$regexi" ||
  op == "$notRegexi" ||
  op == "$jsonContains" ||
  op == "$jsonContained" ||
  op == "$jsonEquals" ||
  op == "$jsonHasKey"

/-- Renders a list of query parts by joining them with the run-unique id:
the parts are what remains of a query string when every occurrence of the
id is erased. -/
def renderParts (uid : String) : List String → String
  | [] => ""
  | [p] => p
  | p :: rest => p ++ uid ++ renderParts uid rest

/-- Renders parameter-name tails by prefixing each with the run-unique id,
keeping the bound values: the tails are what remains of the parameter names
when the id is erased. -/
def renderNames (uid : String) (tails : Option (List (String × JSVal))) :
    Option (List (String × JSVal)) :=
  tails.map (List.map (fun p => (uid ++ p.1, p.2)))

/-- Dispatch characterization of the operator switch: a recognized token
selects its case with the dollar sign stripped into the parameter segment,
and an unrecognized token falls to the default unknown-operator error. -/
theorem parseOperator_cases (uid mode aS op : String) (val : JSVal) :
    (op = "$in" ∧ parseOperator uid mode aS op val = opIn uid mode aS ("in") val) ∨
    (op = "$notIn" ∧ parseOperator uid mode aS op val = opNotIn uid mode aS ("notIn") val) ∨
    (op = "$gte" ∧ parseOperator uid mode aS op val = opGte uid mode aS ("gte") val) ∨
    (op = "$lte" ∧ parseOperator uid mode aS op val = opLte uid mode aS ("lte") val) ∨
    (op = "$gt" ∧ parseOperator uid mode aS op val = opGt uid mode aS ("gt") val) ∨
    (op = "$lt" ∧ parseOperator uid mode aS op val = opLt uid mode aS ("lt") val) ∨
    (op = "$between" ∧ parseOperator uid mode aS op val = opBetween uid mode aS ("between") val) ∨
    (op = "$notBetween" ∧ parseOperator uid mode aS op val = opNotBetween uid mode aS ("notBetween") val) ∨
    (op = "$contains" ∧ parseOperator uid mode aS op val = opContains uid mode aS ("contains") val) ∨
    (op = "$notContains" ∧ parseOperator uid mode aS op val = opNotContains uid mode aS ("notContains") val) ∨
    (op = "$iContains" ∧ parseOperator uid mode aS op val = opIContains uid mode aS ("iContains") val) ∨
    (op = "$notIContains" ∧ parseOperator uid mode aS op val = opNotIContains uid mode aS ("notIContains") val) ∨
    (op = "$startsWith" ∧ parseOperator uid mode aS op val = opStartsWith uid mode aS ("startsWith") val) ∨
    (op = "$notStartsWith" ∧ parseOperator uid mode aS op val = opNotStartsWith uid mode aS ("notStartsWith") val) ∨
    (op = "$endsWith" ∧ parseOperator uid mode aS op val = opEndsWith uid mode aS ("endsWith") val) ∨
    (op = "$notEndsWith" ∧ parseOperator uid mode aS op val = opNotEndsWith uid mode aS ("notEndsWith") val) ∨
    (op = "$equalTo" ∧ parseOperator uid mode aS op val = opEqualTo uid mode aS ("equalTo") val) ∨
    (op = "$notEqualTo" ∧ parseOperator uid mode aS op val = opNotEqualTo uid mode aS ("notEqualTo") val) ∨
    (op = "$regex" ∧ parseOperator uid mode aS op val = opRegex uid mode aS ("regex") val) ∨
    (op = "$notRegex" ∧ parseOperator uid mode aS op val = opNotRegex uid mode aS ("notRegex") val) ∨
    (op = "$regexi" ∧ parseOperator uid mode aS op val = opRegexi uid mode aS ("regexi") val) ∨
    (op = "$notRegexi" ∧ parseOperator uid mode aS op val = opNotRegexi uid mode aS ("notRegexi") val) ∨
    (op = "$jsonContains" ∧ parseOperator uid mode aS op val = opJsonContains uid mode aS ("jsonContains") val) ∨
    (op = "$jsonContained" ∧ parseOperator uid mode aS op val = opJsonContained uid mode aS ("jsonContained") val) ∨
    (op = "$jsonEquals" ∧ parseOperator uid mode aS op val = opJsonEquals uid mode aS ("jsonEquals") val) ∨
    (op = "$jsonHasKey" ∧ parseOperator uid mode aS op val = opJsonHasKey uid mode aS ("jsonHasKey") val) ∨
    (recognizedOp op = false ∧
      parseOperator uid mode aS op val = .error ("INVALID_CONDITION_OPERATOR " ++ op)) := by
  by_cases h1 : op = "$in"
  · exact Or.inl ⟨h1, by subst h1; rfl⟩
  by_cases h2 : op = "$notIn"
  · exact Or.inr (Or.inl ⟨h2, by subst h2; rfl⟩)
  by_cases h3 : op = "$gte"
  · exact Or.inr (Or.inr (Or.inl ⟨h3, by subst h3; rfl⟩))
  by_cases h4 : op = "$lte"
  · exact Or.inr (Or.inr (Or.inr (Or.inl ⟨h4, by subst h4; rfl⟩)))
  by_cases h5 : op = "$gt"
  · exact Or.inr (Or.inr (Or.inr (Or.inr (Or.inl ⟨h5, by subst h5; rfl⟩))))
  by_cases h6 : op = "$lt"
  · exact Or.inr (Or.inr (Or.inr (Or.inr (Or.inr (Or.inl ⟨h6, by subst h6; rfl⟩)))))
  by_cases h7 : op = "$between"
  · exact Or.inr (Or.inr (Or.inr (Or.inr (Or.inr (Or.inr (Or.inl ⟨h7, by subst h7; rfl⟩))))))
  by_cases h8 : op = "$notBetween"
  · exact Or.inr (Or.inr (Or.inr (Or.inr (Or.inr (Or.inr (Or.inr (Or.inl ⟨h8, by subst h8; rfl⟩)))))))
  by_cases h9 : op = "$contains"
  · exact Or.inr (Or.inr (Or.inr (Or.inr (Or.inr (Or.inr (Or.inr (Or.inr (Or.inl ⟨h9, by subst h9; rfl⟩))))))))
  by_cases h10 : op = "$notContains"
  · exact Or.inr (Or.inr (Or.inr (Or.inr (Or.inr (Or.inr (Or.inr (Or.inr (Or.inr (Or.inl ⟨h10, by subst h10; rfl⟩)))))))))
  by_cases h11 : op = "$iContains"
  · exact Or.inr (Or.inr (Or.inr (Or.inr (Or.inr (Or.inr (Or.inr (Or.inr (Or.inr (Or.inr (Or.inl ⟨h11, by subst h11; rfl⟩))))))))))
  by_cases h12 : op = "$notIContains"
  · exact Or.inr (Or.inr (Or.inr (Or.inr (Or.inr (Or.inr (Or.inr (Or.inr (Or.inr (Or.inr (Or.inr (Or.inl ⟨h12, by subst h12; rfl⟩)))))))))))
  by_cases h13 : op = "$startsWith"
  · exact Or.inr (Or.inr (Or.inr (Or.inr (Or.inr (Or.inr (Or.inr (Or.inr (Or.inr (Or.inr (Or.inr (Or.inr (Or.inl ⟨h13, by subst h13; rfl⟩))))))))))))
  by_cases h14 : op = "$notStartsWith"
  · exact Or.inr (Or.inr (Or.inr (Or.inr (Or.inr (Or.inr (Or.inr (Or.inr (Or.inr (Or.inr (Or.inr (Or.inr (Or.inr (Or.inl ⟨h14, by subst h14; rfl⟩)))))))))))))
  by_cases h15 : op = "$endsWith"
  · exact Or.inr (Or.inr (Or.inr (Or.inr (Or.inr (Or.inr (Or.inr (Or.inr (Or.inr (Or.inr (Or.inr (Or.inr (Or.inr (Or.inr (Or.inl ⟨h15, by subst h15; rfl⟩))))))))))))))
  by_cases h16 : op = "$notEndsWith"
  · exact Or.inr (Or.inr (Or.inr (Or.inr (Or.inr (Or.inr (Or.inr (Or.inr (Or.inr (Or.inr (Or.inr (Or.inr (Or.inr (Or.inr (Or.inr (Or.inl ⟨h16, by subst h16; rfl⟩)))))))))))))))
  by_cases h17 : op = "$equalTo"
  · exact Or.inr (Or.inr (Or.inr (Or.inr (Or.inr (Or.inr (Or.inr (Or.inr (Or.inr (Or.inr (Or.inr (Or.inr (Or.inr (Or.inr (Or.inr (Or.inr (Or.inl ⟨h17, by subst h17; rfl⟩))))))))))))))))
  by_cases h18 : op = "$notEqualTo"
  · exact Or.inr (Or.inr (Or.inr (Or.inr (Or.inr (Or.inr (Or.inr (Or.inr (Or.inr (Or.inr (Or.inr (Or.inr (Or.inr (Or.inr (Or.inr (Or.inr (Or.inr (Or.inl ⟨h18, by subst h18; rfl⟩)))))))))))))))))
  by_cases h19 : op = "$regex"
  · exact Or.inr (Or.inr (Or.inr (Or.inr (Or.inr (Or.inr (Or.inr (Or.inr (Or.inr (Or.inr (Or.inr (Or.inr (Or.inr (Or.inr (Or.inr (Or.inr (Or.inr (Or.inr (Or.inl ⟨h19, by subst h19; rfl⟩))))))))))))))))))
  by_cases h20 : op = "$notRegex"
  · exact Or.inr (Or.inr (Or.inr (Or.inr (Or.inr (Or.inr (Or.inr (Or.inr (Or.inr (Or.inr (Or.inr (Or.inr (Or.inr (Or.inr (Or.inr (Or.inr (Or.inr (Or.inr (Or.inr (Or.inl ⟨h20, by subst h20; rfl⟩)))))))))))))))))))
  by_cases h21 : op = "$regexi"
  · exact Or.inr (Or.inr (Or.inr (Or.inr (Or.inr (Or.inr (Or.inr (Or.inr (Or.inr (Or.inr (Or.inr (Or.inr (Or.inr (Or.inr (Or.inr (Or.inr (Or.inr (Or.inr (Or.inr (Or.inr (Or.inl ⟨h21, by subst h21; rfl⟩))))))))))))))))))))
  by_cases h22 : op = "$notRegexi"
  · exact Or.inr (Or.inr (Or.inr (Or.inr (Or.inr (Or.inr (Or.inr (Or.inr (Or.inr (Or.inr (Or.inr (Or.inr (Or.inr (Or.inr (Or.inr (Or.inr (Or.inr (Or.inr (Or.inr (Or.inr (Or.inr (Or.inl ⟨h22, by subst h22; rfl⟩)))))))))))))))))))))
  by_cases h23 : op = "$jsonContains"
  · exact Or.inr (Or.inr (Or.inr (Or.inr (Or.inr (Or.inr (Or.inr (Or.inr (Or.inr (Or.inr (Or.inr (Or.inr (Or.inr (Or.inr (Or.inr (Or.inr (Or.inr (Or.inr (Or.inr (Or.inr (Or.inr (Or.inr (Or.inl ⟨h23, by subst h23; rfl⟩))))))))))))))))))))))
  by_cases h24 : op = "$jsonContained"
  · exact Or.inr (Or.inr (Or.inr (Or.inr (Or.inr (Or.inr (Or.inr (Or.inr (Or.inr (Or.inr (Or.inr (Or.inr (Or.inr (Or.inr (Or.inr (Or.inr (Or.inr (Or.inr (Or.inr (Or.inr (Or.inr (Or.inr (Or.inr (Or.inl ⟨h24, by subst h24; rfl⟩)))))))))))))))))))))))
  by_cases h25 : op = "$jsonEquals"
  · exact Or.inr (Or.inr (Or.inr (Or.inr (Or.inr (Or.inr (Or.inr (Or.inr (Or.inr (Or.inr (Or.inr (Or.inr (Or.inr (Or.inr (Or.inr (Or.inr (Or.inr (Or.inr (Or.inr (Or.inr (Or.inr (Or.inr (Or.inr (Or.inr (Or.inl ⟨h25, by subst h25; rfl⟩))))))))))))))))))))))))
  by_cases h26 : op = "$jsonHasKey"
  · exact Or.inr (Or.inr (Or.inr (Or.inr (Or.inr (Or.inr (Or.inr (Or.inr (Or.inr (Or.inr (Or.inr (Or.inr (Or.inr (Or.inr (Or.inr (Or.inr (Or.inr (Or.inr (Or.inr (Or.inr (Or.inr (Or.inr (Or.inr (Or.inr (Or.inr (Or.inl ⟨h26, by subst h26; rfl⟩)))))))))))))))))))))))))
  refine Or.inr (Or.inr (Or.inr (Or.inr (Or.inr (Or.inr (Or.inr (Or.inr (Or.inr (Or.inr (Or.inr (Or.inr (Or.inr (Or.inr (Or.inr (Or.inr (Or.inr (Or.inr (Or.inr (Or.inr (Or.inr (Or.inr (Or.inr (Or.inr (Or.inr (Or.inr ⟨?_, ?_⟩)))))))))))))))))))))))))
  · simp [recognizedOp, h1, h2, h3, h4, h5, h6, h7, h8, h9, h10, h11, h12, h13, h14, h15, h16, h17, h18, h19, h20, h21, h22, h23, h24, h25, h26]
  · rw [parseOperator.eq_def]
    simp only [if_neg h1, if_neg h2, if_neg h3, if_neg h4, if_neg h5, if_neg h6, if_neg h7, if_neg h8, if_neg h9, if_neg h10, if_neg h11, if_neg h12, if_neg h13, if_neg h14, if_neg h15, if_neg h16, if_neg h17, if_neg h18, if_neg h19, if_neg h20, if_neg h21, if_neg h22, if_neg h23, if_neg h24, if_neg h25, if_neg h26]

/-- A value passing the equality-operand test is neither null nor
undefined. -/
theorem scalar_not_nullish (v : JSVal) (h : v.isScalarEqVal = true) : v.isNullish = false := by
  cases v <;> simp_all [JSVal.isScalarEqVal, JSVal.isNullish]

/-- parseCondition in qb mode reduces to the post-validation body on a valid
alias and a present condition. -/
theorem parseCondition_qb_unfold (uid : String) (a cond : JSVal)
    (h1 : aliasInvalid a = false) (h2 : cond.isNullish = false) :
    parseCondition uid ("qb") a cond = parseAfterValidation uid ("qb") a cond := by
  unfold parseCondition
  simp [h1, h2]

/-- parseCondition in find mode reduces to the post-validation body on a
present condition; the alias is not inspected. -/
theorem parseCondition_find_unfold (uid : String) (a cond : JSVal)
    (h2 : cond.isNullish = false) :
    parseCondition uid ("find") a cond = parseAfterValidation uid ("find") a cond := by
  unfold parseCondition
  simp [h2]

/-- A single-key object condition dispatches to the operator switch once its
value is present. -/
theorem parseAfterValidation_single (uid mode : String) (a : JSVal) (op : String) (val : JSVal)
    (hv : val.isNullish = false) :
    parseAfterValidation uid mode a (.obj [(op, val)]) =
      parseOperator uid mode (jsString a) op val := by
  unfold parseAfterValidation
  simp [JSVal.typeofObject, JSVal.isArray, JSVal.jsEntries, keyIsString, hv]

/-- Claim C2, as stated, is false on the code: compiling a $notEqualTo
condition in fragment mode yields the query "f != :p" with the != symbol,
not the "f <> :p" shape the claim requires; no parameter name p can make
the produced query match the claimed shape. -/
theorem claim_C2_counterexample :
    parseCondition ("u") ("qb") (.str ("f")) (.obj [(("$notEqualTo"), .num 1)]) =
      .ok (.qbRes ⟨"f != :u_notEqualTo_f", some [(("u_notEqualTo_f"), .num 1)]⟩) ∧
    ∀ p : String, "f != :u_notEqualTo_f" ≠ "f <> :" ++ p := by
  refine ⟨rfl, ?_⟩
  intro p hp
  obtain ⟨cs⟩ := p
  have h2 := congrArg String.data hp
  simp [String.data_append] at h2

/-- Claim C2 (amended): for every valid field reference f and every operand
v that is a string, number, boolean, or Date, compiling the $notEqualTo
condition in fragment mode returns the query "f != :p" (the emitted SQL
inequality symbol is !=, not <>), with the single parameter p bound to v. -/
theorem claim_C2_amended (uid f : String) (v : JSVal)
    (hf : aliasInvalid (.str f) = false) (hv : v.isScalarEqVal = true) :
    parseCondition uid ("qb") (.str f) (.obj [(("$notEqualTo"), v)]) =
      .ok (.qbRes ⟨f ++ " != :" ++ paramName uid ("notEqualTo") f,
        some [(paramName uid ("notEqualTo") f, v)]⟩) := by
  rw [parseCondition_qb_unfold uid _ _ hf (by simp [JSVal.isNullish]),
    parseAfterValidation_single uid _ _ _ _ (scalar_not_nullish v hv),
    show parseOperator uid ("qb") (jsString (.str f)) ("$notEqualTo") v =
      opNotEqualTo uid ("qb") (jsString (.str f)) ("notEqualTo") v from rfl]
  simp [opNotEqualTo, hv, jsString]

/-- Witness for the amended claim C2 at a concrete input. -/
theorem claim_C2_witness :
    parseCondition ("u") ("qb") (.str ("user.name")) (.obj [(("$notEqualTo"), .str ("John"))]) =
      .ok (.qbRes ⟨"user.name != :u_notEqualTo_user.name",
        some [(("u_notEqualTo_user.name"), .str ("John"))]⟩) :=
  claim_C2_amended ("u") ("user.name") (.str ("John")) (by decide) (by decide)

/-- Claim C3, as stated, is false on the code: a bare scalar compiles with
the parameter-name operator segment eq, while the $equalTo form uses the
segment equalTo, so the two parameter names differ; moreover a bare Date
value is typeof object with zero enumerable keys, so it is rejected with the
key-count error rather than compiled as an equality. -/
theorem claim_C3_counterexample :
    parseCondition ("u") ("qb") (.str ("f")) (.str ("x")) =
      .ok (.qbRes ⟨"f = :u_eq_f", some [(("u_eq_f"), .str ("x"))]⟩) ∧
    parseCondition ("u") ("qb") (.str ("f")) (.obj [(("$equalTo"), .str ("x"))]) =
      .ok (.qbRes ⟨"f = :u_equalTo_f", some [(("u_equalTo_f"), .str ("x"))]⟩) ∧
    ("u_eq_f" : String) ≠ "u_equalTo_f" ∧
    parseCondition ("u") ("qb") (.str ("f")) (.date 0) =
      .error ("CONDITION_OBJECT_MUST_HAVE_EXACTLY_ONE_KEY") := by
  exact ⟨rfl, rfl, by decide, rfl⟩

/-- Claim C3 (amended): for every valid field reference f and every bare
scalar condition v that is a non-sentinel string, number or boolean (a bare
Date is instead rejected as a zero-key object), fragment mode produces the
same query shape and the same bound value as the $equalTo form, but the
parameter name uses the operator segment eq where $equalTo uses equalTo;
in operator mode the two forms return the same Equal operator value. -/
theorem claim_C3_amended (uid f : String) (v : JSVal)
    (hf : aliasInvalid (.str f) = false) (hv : v.isScalarEqVal = true)
    (hd : v.typeofObject = false)
    (hs1 : v.isStrLit ("$isNull") = false) (hs2 : v.isStrLit ("$isNotNull") = false) :
    parseCondition uid ("qb") (.str f) v =
      .ok (.qbRes ⟨f ++ " = :" ++ paramName uid ("eq") f,
        some [(paramName uid ("eq") f, v)]⟩) ∧
    parseCondition uid ("qb") (.str f) (.obj [(("$equalTo"), v)]) =
      .ok (.qbRes ⟨f ++ " = :" ++ paramName uid ("equalTo") f,
        some [(paramName uid ("equalTo") f, v)]⟩) ∧
    parseCondition uid ("find") (.str f) v = .ok (.findRes (.equal v)) ∧
    parseCondition uid ("find") (.str f) (.obj [(("$equalTo"), v)]) =
      .ok (.findRes (.equal v)) := by
  have hnn : v.isNullish = false := scalar_not_nullish v hv
  refine ⟨?_, ?_, ?_, ?_⟩
  · rw [parseCondition_qb_unfold uid _ _ hf hnn]
    cases v <;>
      simp_all [parseAfterValidation, JSVal.typeofObject, JSVal.isArray, JSVal.isStrLit,
        JSVal.isScalarEqVal, JSVal.isNullish, jsString]
  · rw [parseCondition_qb_unfold uid _ _ hf (by simp [JSVal.isNullish]),
      parseAfterValidation_single uid _ _ _ _ hnn,
      show parseOperator uid ("qb") (jsString (.str f)) ("$equalTo") v =
        opEqualTo uid ("qb") (jsString (.str f)) ("equalTo") v from rfl]
    simp [opEqualTo, hv, jsString]
  · rw [parseCondition_find_unfold uid _ _ hnn]
    cases v <;>
      simp_all [parseAfterValidation, JSVal.typeofObject, JSVal.isArray, JSVal.isStrLit,
        JSVal.isScalarEqVal, JSVal.isNullish, jsString]
  · rw [parseCondition_find_unfold uid _ _ (by simp [JSVal.isNullish]),
      parseAfterValidation_single uid _ _ _ _ hnn,
      show parseOperator uid ("find") (jsString (.str f)) ("$equalTo") v =
        opEqualTo uid ("find") (jsString (.str f)) ("equalTo") v from rfl]
    simp [opEqualTo, hv]

/-- Witness for the amended claim C3 at a concrete input. -/
theorem claim_C3_witness :
    parseCondition ("u") ("qb") (.str ("f")) (.num 7) =
      .ok (.qbRes ⟨"f = :u_eq_f", some [(("u_eq_f"), .num 7)]⟩) ∧
    parseCondition ("u") ("qb") (.str ("f")) (.obj [(("$equalTo"), .num 7)]) =
      .ok (.qbRes ⟨"f = :u_equalTo_f", some [(("u_equalTo_f"), .num 7)]⟩) ∧
    parseCondition ("u") ("find") (.str ("f")) (.num 7) = .ok (.findRes (.equal (.num 7))) ∧
    parseCondition ("u") ("find") (.str ("f")) (.obj [(("$equalTo"), .num 7)]) =
      .ok (.findRes (.equal (.num 7))) :=
  claim_C3_amended ("u") ("f") (.num 7) (by decide) (by decide) (by decide)
    (by decide) (by decide)

/-- Claim C4, as stated, is false on the code: the $jsonHasKey case performs
no operand-shape check, so a non-string operand (here the number 5) compiles
successfully to a fragment instead of failing with an invalid-operand-shape
error. -/
theorem claim_C4_counterexample :
    parseCondition ("u") ("qb") (.str ("f")) (.obj [(("$jsonHasKey"), .num 5)]) =
      .ok (.qbRes ⟨"f ? :u_jsonHasKey_f_key", some [(("u_jsonHasKey_f_key"), .num 5)]⟩) := rfl

/-- Claim C4 (amended): the $jsonHasKey operator enforces no operand shape:
for every valid field reference and every non-absent operand v of any type,
fragment mode succeeds with the key-presence fragment and binds v unchanged
under the key-suffixed parameter name. -/
theorem claim_C4_amended (uid f : String) (v : JSVal)
    (hf : aliasInvalid (.str f) = false) (hv : v.isNullish = false) :
    parseCondition uid ("qb") (.str f) (.obj [(("$jsonHasKey"), v)]) =
      .ok (.qbRes ⟨f ++ " ? :" ++ paramName uid ("jsonHasKey") f ++ "_key",
        some [(paramName uid ("jsonHasKey") f ++ "_key", v)]⟩) := by
  rw [parseCondition_qb_unfold uid _ _ hf (by simp [JSVal.isNullish]),
    parseAfterValidation_single uid _ _ _ _ hv,
    show parseOperator uid ("qb") (jsString (.str f)) ("$jsonHasKey") v =
      opJsonHasKey uid ("qb") (jsString (.str f)) ("jsonHasKey") v from rfl]
  simp [opJsonHasKey, jsString]

/-- Witness for the amended claim C4 at a concrete non-string operand. -/
theorem claim_C4_witness :
    parseCondition ("u") ("qb") (.str ("f")) (.obj [(("$jsonHasKey"), .bool true)]) =
      .ok (.qbRes ⟨"f ? :u_jsonHasKey_f_key", some [(("u_jsonHasKey_f_key"), .bool true)]⟩) :=
  claim_C4_amended ("u") ("f") (.bool true) (by decide) (by decide)

/-- Claim C10: the empty array as a bare condition is accepted: the scalar
check holds vacuously, fragment mode compiles it to the membership fragment
with the single parameter bound to the empty array, and operator mode
compiles it to the membership operator over the empty list. -/
theorem claim_C10_empty_array (uid f : String) (a : JSVal)
    (hf : aliasInvalid (.str f) = false) :
    parseCondition uid ("qb") (.str f) (.arr []) =
      .ok (.qbRes ⟨f ++ " IN (:..." ++ paramName uid ("in") f ++ ")",
        some [(paramName uid ("in") f, .arr [])]⟩) ∧
    parseCondition uid ("find") a (.arr []) = .ok (.findRes (.inList [])) := by
  constructor
  · rw [parseCondition_qb_unfold uid _ _ hf (by simp [JSVal.isNullish])]
    simp [parseAfterValidation, JSVal.typeofObject, JSVal.isArray, JSVal.arrElems,
      JSVal.isStrLit, JSVal.isScalarEqVal, jsString]
  · rw [parseCondition_find_unfold uid _ _ (by simp [JSVal.isNullish])]
    simp [parseAfterValidation, JSVal.typeofObject, JSVal.isArray, JSVal.arrElems,
      JSVal.isStrLit, JSVal.isScalarEqVal, JSVal.jsEntries]

/-- Witness for claim C10 at a concrete input. -/
theorem claim_C10_witness :
    parseCondition ("u") ("qb") (.str ("f")) (.arr []) =
      .ok (.qbRes ⟨"f IN (:...u_in_f)", some [(("u_in_f"), .arr [])]⟩) ∧
    parseCondition ("u") ("find") (.str ("f")) (.arr []) = .ok (.findRes (.inList [])) :=
  claim_C10_empty_array ("u") ("f") (.str ("f")) (by decide)

/-- The only failure of opIn is its operand-shape message. -/
theorem opIn_error (uid mode aS pp : String) (val : JSVal) (e : String)
    (h : opIn uid mode aS pp val = .error e) :
    e = "$IN_OPERATOR_MUST_HAVE_AN_ARRAY_OF_STRINGS_OR_NUMBERS" := by
  simp only [opIn] at h
  repeat' split at h
  all_goals simp_all

/-- The only failure of opNotIn is its operand-shape message. -/
theorem opNotIn_error (uid mode aS pp : String) (val : JSVal) (e : String)
    (h : opNotIn uid mode aS pp val = .error e) :
    e = "$IN_OPERATOR_MUST_HAVE_AN_ARRAY_OF_STRINGS_OR_NUMBERS" := by
  simp only [opNotIn] at h
  repeat' split at h
  all_goals simp_all

/-- The only failure of opGte is its operand-shape message. -/
theorem opGte_error (uid mode aS pp : String) (val : JSVal) (e : String)
    (h : opGte uid mode aS pp val = .error e) :
    e = "$GTE_OPERATOR_MUST_HAVE_A_NUMBER_STRING_OR_DATE" := by
  simp only [opGte] at h
  repeat' split at h
  all_goals simp_all

/-- The only failure of opLte is its operand-shape message. -/
theorem opLte_error (uid mode aS pp : String) (val : JSVal) (e : String)
    (h : opLte uid mode aS pp val = .error e) :
    e = "$LTE_OPERATOR_MUST_HAVE_A_NUMBER_STRING_OR_DATE" := by
  simp only [opLte] at h
  repeat' split at h
  all_goals simp_all

/-- The only failure of opGt is its operand-shape message. -/
theorem opGt_error (uid mode aS pp : String) (val : JSVal) (e : String)
    (h : opGt uid mode aS pp val = .error e) :
    e = "$GT_OPERATOR_MUST_HAVE_A_NUMBER_STRING_OR_DATE" := by
  simp only [opGt] at h
  repeat' split at h
  all_goals simp_all

/-- The only failure of opLt is its operand-shape message. -/
theorem opLt_error (uid mode aS pp : String) (val : JSVal) (e : String)
    (h : opLt uid mode aS pp val = .error e) :
    e = "$LT_OPERATOR_MUST_HAVE_A_NUMBER_STRING_OR_DATE" := by
  simp only [opLt] at h
  repeat' split at h
  all_goals simp_all

/-- The only failure of opBetween is its operand-shape message. -/
theorem opBetween_error (uid mode aS pp : String) (val : JSVal) (e : String)
    (h : opBetween uid mode aS pp val = .error e) :
    e = "$BETWEEN_OPERATOR_MUST_HAVE_AN_ARRAY_WITH_TWO_VALUES" := by
  simp only [opBetween] at h
  repeat' split at h
  all_goals simp_all

/-- The only failure of opNotBetween is its operand-shape message. -/
theorem opNotBetween_error (uid mode aS pp : String) (val : JSVal) (e : String)
    (h : opNotBetween uid mode aS pp val = .error e) :
    e = "$NOT_BETWEEN_OPERATOR_MUST_HAVE_AN_ARRAY_WITH_TWO_VALUES" := by
  simp only [opNotBetween] at h
  repeat' split at h
  all_goals simp_all

/-- The only failure of opContains is its operand-shape message. -/
theorem opContains_error (uid mode aS pp : String) (val : JSVal) (e : String)
    (h : opContains uid mode aS pp val = .error e) :
    e = "$CONTAINS_OPERATOR_MUST_HAVE_A_STRING_VALUE" := by
  simp only [opContains] at h
  repeat' split at h
  all_goals simp_all

/-- The only failure of opNotContains is its operand-shape message. -/
theorem opNotContains_error (uid mode aS pp : String) (val : JSVal) (e : String)
    (h : opNotContains uid mode aS pp val = .error e) :
    e = "$NOT_CONTAINS_OPERATOR_MUST_HAVE_A_STRING_VALUE" := by
  simp only [opNotContains] at h
  repeat' split at h
  all_goals simp_all

/-- The only failure of opIContains is its operand-shape message. -/
theorem opIContains_error (uid mode aS pp : String) (val : JSVal) (e : String)
    (h : opIContains uid mode aS pp val = .error e) :
    e = "$I_CONTAINS_OPERATOR_MUST_HAVE_A_STRING_VALUE" := by
  simp only [opIContains] at h
  repeat' split at h
  all_goals simp_all

/-- The only failure of opNotIContains is its operand-shape message. -/
theorem opNotIContains_error (uid mode aS pp : String) (val : JSVal) (e : String)
    (h : opNotIContains uid mode aS pp val = .error e) :
    e = "$NOT_I_CONTAINS_OPERATOR_MUST_HAVE_A_STRING_VALUE" := by
  simp only [opNotIContains] at h
  repeat' split at h
  all_goals simp_all

/-- The only failure of opStartsWith is its operand-shape message. -/
theorem opStartsWith_error (uid mode aS pp : String) (val : JSVal) (e : String)
    (h : opStartsWith uid mode aS pp val = .error e) :
    e = "$STARTS_WITH_OPERATOR_MUST_HAVE_A_STRING_VALUE" := by
  simp only [opStartsWith] at h
  repeat' split at h
  all_goals simp_all

/-- The only failure of opNotStartsWith is its operand-shape message. -/
theorem opNotStartsWith_error (uid mode aS pp : String) (val : JSVal) (e : String)
    (h : opNotStartsWith uid mode aS pp val = .error e) :
    e = "$NOT_STARTS_WITH_OPERATOR_MUST_HAVE_A_STRING_VALUE" := by
  simp only [opNotStartsWith] at h
  repeat' split at h
  all_goals simp_all

/-- The only failure of opEndsWith is its operand-shape message. -/
theorem opEndsWith_error (uid mode aS pp : String) (val : JSVal) (e : String)
    (h : opEndsWith uid mode aS pp val = .error e) :
    e = "$ENDS_WITH_OPERATOR_MUST_HAVE_A_STRING_VALUE" := by
  simp only [opEndsWith] at h
  repeat' split at h
  all_goals simp_all

/-- The only failure of opNotEndsWith is its operand-shape message. -/
theorem opNotEndsWith_error (uid mode aS pp : String) (val : JSVal) (e : String)
    (h : opNotEndsWith uid mode aS pp val = .error e) :
    e = "$NOT_ENDS_WITH_OPERATOR_MUST_HAVE_A_STRING_VALUE" := by
  simp only [opNotEndsWith] at h
  repeat' split at h
  all_goals simp_all

/-- The only failure of opEqualTo is its operand-shape message. -/
theorem opEqualTo_error (uid mode aS pp : String) (val : JSVal) (e : String)
    (h : opEqualTo uid mode aS pp val = .error e) :
    e = "$EQUAL_TO_OPERATOR_MUST_HAVE_A_STRING_NUMBER_BOOLEAN_OR_DATE_VALUE" := by
  simp only [opEqualTo] at h
  repeat' split at h
  all_goals simp_all

/-- The only failure of opNotEqualTo is its operand-shape message. -/
theorem opNotEqualTo_error (uid mode aS pp : String) (val : JSVal) (e : String)
    (h : opNotEqualTo uid mode aS pp val = .error e) :
    e = "$NOT_EQUAL_TO_OPERATOR_MUST_HAVE_A_STRING_NUMBER_BOOLEAN_OR_DATE_VALUE" := by
  simp only [opNotEqualTo] at h
  repeat' split at h
  all_goals simp_all

/-- The only failure of opRegex is its operand-shape message. -/
theorem opRegex_error (uid mode aS pp : String) (val : JSVal) (e : String)
    (h : opRegex uid mode aS pp val = .error e) :
    e = "$REGEX_OPERATOR_MUST_HAVE_A_STRING_VALUE" := by
  simp only [opRegex] at h
  repeat' split at h
  all_goals simp_all

/-- The only failure of opNotRegex is its operand-shape message. -/
theorem opNotRegex_error (uid mode aS pp : String) (val : JSVal) (e : String)
    (h : opNotRegex uid mode aS pp val = .error e) :
    e = "$NOT_REGEX_OPERATOR_MUST_HAVE_A_STRING_VALUE" := by
  simp only [opNotRegex] at h
  repeat' split at h
  all_goals simp_all

/-- The only failure of opRegexi is its operand-shape message. -/
theorem opRegexi_error (uid mode aS pp : String) (val : JSVal) (e : String)
    (h : opRegexi uid mode aS pp val = .error e) :
    e = "$REGEXI_OPERATOR_MUST_HAVE_A_STRING_VALUE" := by
  simp only [opRegexi] at h
  repeat' split at h
  all_goals simp_all

/-- The only failure of opNotRegexi is its operand-shape message. -/
theorem opNotRegexi_error (uid mode aS pp : String) (val : JSVal) (e : String)
    (h : opNotRegexi uid mode aS pp val = .error e) :
    e = "$NOT_REGEXI_OPERATOR_MUST_HAVE_A_STRING_VALUE" := by
  simp only [opNotRegexi] at h
  repeat' split at h
  all_goals simp_all

/-- opJsonContains never fails. -/
theorem opJsonContains_error (uid mode aS pp : String) (val : JSVal) (e : String)
    (h : opJsonContains uid mode aS pp val = .error e) : False := by
  simp only [opJsonContains] at h
  repeat' split at h
  all_goals simp_all

/-- opJsonContained never fails. -/
theorem opJsonContained_error (uid mode aS pp : String) (val : JSVal) (e : String)
    (h : opJsonContained uid mode aS pp val = .error e) : False := by
  simp only [opJsonContained] at h
  repeat' split at h
  all_goals simp_all

/-- opJsonEquals never fails. -/
theorem opJsonEquals_error (uid mode aS pp : String) (val : JSVal) (e : String)
    (h : opJsonEquals uid mode aS pp val = .error e) : False := by
  simp only [opJsonEquals] at h
  repeat' split at h
  all_goals simp_all

/-- opJsonHasKey never fails. -/
theorem opJsonHasKey_error (uid mode aS pp : String) (val : JSVal) (e : String)
    (h : opJsonHasKey uid mode aS pp val = .error e) : False := by
  simp only [opJsonHasKey] at h
  repeat' split at h
  all_goals simp_all

/-- Every failure of the operator switch is either an operand-shape message
or the unknown-operator message; in particular it is never the alias
message nor the operator-must-be-a-string message. -/
theorem parseOperator_error_ne (uid mode aS op : String) (val : JSVal) (e : String)
    (h : parseOperator uid mode aS op val = .error e) :
    e ≠ "ALIAS_MUST_BE_A_NON_EMPTY_STRING" ∧ e ≠ "CONDITION_OPERATOR_MUST_BE_A_STRING" := by
  rcases parseOperator_cases uid mode aS op val with
    ⟨_, heq⟩ |
    ⟨_, heq⟩ |
    ⟨_, heq⟩ |
    ⟨_, heq⟩ |
    ⟨_, heq⟩ |
    ⟨_, heq⟩ |
    ⟨_, heq⟩ |
    ⟨_, heq⟩ |
    ⟨_, heq⟩ |
    ⟨_, heq⟩ |
    ⟨_, heq⟩ |
    ⟨_, heq⟩ |
    ⟨_, heq⟩ |
    ⟨_, heq⟩ |
    ⟨_, heq⟩ |
    ⟨_, heq⟩ |
    ⟨_, heq⟩ |
    ⟨_, heq⟩ |
    ⟨_, heq⟩ |
    ⟨_, heq⟩ |
    ⟨_, heq⟩ |
    ⟨_, heq⟩ |
    ⟨_, heq⟩ |
    ⟨_, heq⟩ |
    ⟨_, heq⟩ |
    ⟨_, heq⟩ |
    ⟨_, heq⟩
  · rw [heq] at h
    have he := opIn_error _ _ _ _ _ _ h
    subst he
    exact ⟨by decide, by decide⟩
  · rw [heq] at h
    have he := opNotIn_error _ _ _ _ _ _ h
    subst he
    exact ⟨by decide, by decide⟩
  · rw [heq] at h
    have he := opGte_error _ _ _ _ _ _ h
    subst he
    exact ⟨by decide, by decide⟩
  · rw [heq] at h
    have he := opLte_error _ _ _ _ _ _ h
    subst he
    exact ⟨by decide, by decide⟩
  · rw [heq] at h
    have he := opGt_error _ _ _ _ _ _ h
    subst he
    exact ⟨by decide, by decide⟩
  · rw [heq] at h
    have he := opLt_error _ _ _ _ _ _ h
    subst he
    exact ⟨by decide, by decide⟩
  · rw [heq] at h
    have he := opBetween_error _ _ _ _ _ _ h
    subst he
    exact ⟨by decide, by decide⟩
  · rw [heq] at h
    have he := opNotBetween_error _ _ _ _ _ _ h
    subst he
    exact ⟨by decide, by decide⟩
  · rw [heq] at h
    have he := opContains_error _ _ _ _ _ _ h
    subst he
    exact ⟨by decide, by decide⟩
  · rw [heq] at h
    have he := opNotContains_error _ _ _ _ _ _ h
    subst he
    exact ⟨by decide, by decide⟩
  · rw [heq] at h
    have he := opIContains_error _ _ _ _ _ _ h
    subst he
    exact ⟨by decide, by decide⟩
  · rw [heq] at h
    have he := opNotIContains_error _ _ _ _ _ _ h
    subst he
    exact ⟨by decide, by decide⟩
  · rw [heq] at h
    have he := opStartsWith_error _ _ _ _ _ _ h
    subst he
    exact ⟨by decide, by decide⟩
  · rw [heq] at h
    have he := opNotStartsWith_error _ _ _ _ _ _ h
    subst he
    exact ⟨by decide, by decide⟩
  · rw [heq] at h
    have he := opEndsWith_error _ _ _ _ _ _ h
    subst he
    exact ⟨by decide, by decide⟩
  · rw [heq] at h
    have he := opNotEndsWith_error _ _ _ _ _ _ h
    subst he
    exact ⟨by decide, by decide⟩
  · rw [heq] at h
    have he := opEqualTo_error _ _ _ _ _ _ h
    subst he
    exact ⟨by decide, by decide⟩
  · rw [heq] at h
    have he := opNotEqualTo_error _ _ _ _ _ _ h
    subst he
    exact ⟨by decide, by decide⟩
  · rw [heq] at h
    have he := opRegex_error _ _ _ _ _ _ h
    subst he
    exact ⟨by decide, by decide⟩
  · rw [heq] at h
    have he := opNotRegex_error _ _ _ _ _ _ h
    subst he
    exact ⟨by decide, by decide⟩
  · rw [heq] at h
    have he := opRegexi_error _ _ _ _ _ _ h
    subst he
    exact ⟨by decide, by decide⟩
  · rw [heq] at h
    have he := opNotRegexi_error _ _ _ _ _ _ h
    subst he
    exact ⟨by decide, by decide⟩
  · rw [heq] at h
    exact (opJsonContains_error _ _ _ _ _ _ h).elim
  · rw [heq] at h
    exact (opJsonContained_error _ _ _ _ _ _ h).elim
  · rw [heq] at h
    exact (opJsonEquals_error _ _ _ _ _ _ h).elim
  · rw [heq] at h
    exact (opJsonHasKey_error _ _ _ _ _ _ h).elim
  · rw [heq] at h
    injection h with h
    subst h
    constructor <;> intro hc <;>
      (have hd := congrArg String.data hc; simp [String.data_append] at hd)

/-- Every failure of the post-validation body is a condition-shape message,
an operand message or the unknown-operator message; it is never the alias
message nor the operator-must-be-a-string message (the latter branch is
unreachable because object keys are strings). -/
theorem parseAfterValidation_error_ne (uid mode : String) (a cond : JSVal) (e : String)
    (h : parseAfterValidation uid mode a cond = .error e) :
    e ≠ "ALIAS_MUST_BE_A_NON_EMPTY_STRING" ∧ e ≠ "CONDITION_OPERATOR_MUST_BE_A_STRING" := by
  simp only [parseAfterValidation] at h
  repeat' split at h
  all_goals first
    | exact Except.noConfusion h
    | (injection h with h; subst h; exact ⟨by decide, by decide⟩)
    | exact parseOperator_error_ne _ _ _ _ _ _ h
    | simp_all [keyIsString]

/-- An unrecognized operator token always falls to the default case of the
switch, producing the unknown-operator error carrying the literal token. -/
theorem parseOperator_unknown (uid mode aS op : String) (val : JSVal)
    (h : recognizedOp op = false) :
    parseOperator uid mode aS op val = .error ("INVALID_CONDITION_OPERATOR " ++ op) := by
  rcases parseOperator_cases uid mode aS op val with
    ⟨hop, _⟩ |
    ⟨hop, _⟩ |
    ⟨hop, _⟩ |
    ⟨hop, _⟩ |
    ⟨hop, _⟩ |
    ⟨hop, _⟩ |
    ⟨hop, _⟩ |
    ⟨hop, _⟩ |
    ⟨hop, _⟩ |
    ⟨hop, _⟩ |
    ⟨hop, _⟩ |
    ⟨hop, _⟩ |
    ⟨hop, _⟩ |
    ⟨hop, _⟩ |
    ⟨hop, _⟩ |
    ⟨hop, _⟩ |
    ⟨hop, _⟩ |
    ⟨hop, _⟩ |
    ⟨hop, _⟩ |
    ⟨hop, _⟩ |
    ⟨hop, _⟩ |
    ⟨hop, _⟩ |
    ⟨hop, _⟩ |
    ⟨hop, _⟩ |
    ⟨hop, _⟩ |
    ⟨hop, _⟩ |
    ⟨_, heq⟩
  · subst hop
    exact absurd h (by decide)
  · subst hop
    exact absurd h (by decide)
  · subst hop
    exact absurd h (by decide)
  · subst hop
    exact absurd h (by decide)
  · subst hop
    exact absurd h (by decide)
  · subst hop
    exact absurd h (by decide)
  · subst hop
    exact absurd h (by decide)
  · subst hop
    exact absurd h (by decide)
  · subst hop
    exact absurd h (by decide)
  · subst hop
    exact absurd h (by decide)
  · subst hop
    exact absurd h (by decide)
  · subst hop
    exact absurd h (by decide)
  · subst hop
    exact absurd h (by decide)
  · subst hop
    exact absurd h (by decide)
  · subst hop
    exact absurd h (by decide)
  · subst hop
    exact absurd h (by decide)
  · subst hop
    exact absurd h (by decide)
  · subst hop
    exact absurd h (by decide)
  · subst hop
    exact absurd h (by decide)
  · subst hop
    exact absurd h (by decide)
  · subst hop
    exact absurd h (by decide)
  · subst hop
    exact absurd h (by decide)
  · subst hop
    exact absurd h (by decide)
  · subst hop
    exact absurd h (by decide)
  · subst hop
    exact absurd h (by decide)
  · subst hop
    exact absurd h (by decide)
  · exact heq

/-- Claim C9: the condition-operator-must-be-a-string error branch is
unreachable.  Object key enumeration yields only strings (numeric keys are
coerced by the JavaScript runtime, which the model captures in keyIsString),
so no input whatsoever makes parseCondition raise that error. -/
theorem claim_C9_opstring_unreachable (uid mode : String) (a cond : JSVal) (e : String)
    (h : parseCondition uid mode a cond = .error e) :
    e ≠ "CONDITION_OPERATOR_MUST_BE_A_STRING" := by
  simp only [parseCondition] at h
  repeat' split at h
  all_goals first
    | exact Except.noConfusion h
    | (injection h with h; subst h; decide)
    | exact (parseAfterValidation_error_ne _ _ _ _ _ h).2

/-- Witness for claim C9: an error raised at a concrete input is not the
operator-must-be-a-string error. -/
theorem claim_C9_witness :
    ("CONDITION_CANNOT_BE_UNDEFINED_OR_NULL" : String) ≠ "CONDITION_OPERATOR_MUST_BE_A_STRING" :=
  claim_C9_opstring_unreachable ("u") ("qb") (.str ("f")) .null _ rfl

/-- Claim C6, as stated, is false on the code: a single-key object whose key
is unrecognized but whose value is null fails with the missing-operand error,
not with the unknown-operator error the claim promises for every
unrecognized key. -/
theorem claim_C6_counterexample :
    parseCondition ("u") ("qb") (.str ("f")) (.obj [(("$foo"), .null)]) =
      .error ("CONDITION_VALUE_CANNOT_BE_UNDEFINED_OR_NULL") ∧
    ("CONDITION_VALUE_CANNOT_BE_UNDEFINED_OR_NULL" : String) ≠ "INVALID_CONDITION_OPERATOR $foo" :=
  ⟨rfl, by decide⟩

/-- Claim C6 (amended): in a call with a recognized mode and, in fragment
mode, a valid field reference: every non-array object condition with a key
count other than one (a Date instance contributes zero keys) fails with the
ambiguous-shape error; the null and undefined conditions fail with the
missing-condition error; and a single-key object with an unrecognized key
whose value is present fails with the unknown-operator error carrying the
literal token (with a null or undefined value the missing-operand error wins
instead). -/
theorem claim_C6_amended (uid mode : String) (a : JSVal)
    (hm : mode = "qb" ∨ mode = "find") (ha : mode = "qb" → aliasInvalid a = false) :
    (∀ kvs : List (String × JSVal), kvs.length ≠ 1 →
      parseCondition uid mode a (.obj kvs) =
        .error ("CONDITION_OBJECT_MUST_HAVE_EXACTLY_ONE_KEY")) ∧
    (∀ t : Int, parseCondition uid mode a (.date t) =
      .error ("CONDITION_OBJECT_MUST_HAVE_EXACTLY_ONE_KEY")) ∧
    parseCondition uid mode a .null = .error ("CONDITION_CANNOT_BE_UNDEFINED_OR_NULL") ∧
    parseCondition uid mode a .undef = .error ("CONDITION_CANNOT_BE_UNDEFINED_OR_NULL") ∧
    (∀ (k : String) (v : JSVal), recognizedOp k = false → v.isNullish = false →
      parseCondition uid mode a (.obj [(k, v)]) =
        .error ("INVALID_CONDITION_OPERATOR " ++ k)) := by
  have hred : ∀ cond : JSVal, cond.isNullish = false →
      parseCondition uid mode a cond = parseAfterValidation uid mode a cond := by
    rcases hm with h | h <;> subst h
    · exact fun cond hc => parseCondition_qb_unfold uid _ _ (ha rfl) hc
    · exact fun cond hc => parseCondition_find_unfold uid _ _ hc
  refine ⟨?_, ?_, ?_, ?_, ?_⟩
  · intro kvs hlen
    rw [hred _ (by simp [JSVal.isNullish])]
    simp [parseAfterValidation, JSVal.typeofObject, JSVal.isArray, JSVal.jsEntries, hlen]
  · intro t
    rw [hred _ (by simp [JSVal.isNullish])]
    simp [parseAfterValidation, JSVal.typeofObject, JSVal.isArray, JSVal.jsEntries]
  · rcases hm with h | h <;> subst h
    · simp [parseCondition, ha rfl, JSVal.isNullish]
    · simp [parseCondition, JSVal.isNullish]
  · rcases hm with h | h <;> subst h
    · simp [parseCondition, ha rfl, JSVal.isNullish]
    · simp [parseCondition, JSVal.isNullish]
  · intro k v hk hv
    rw [hred _ (by simp [JSVal.isNullish]), parseAfterValidation_single uid _ _ _ _ hv]
    exact parseOperator_unknown uid mode (jsString a) k v hk

/-- Witness for the amended claim C6 at concrete inputs. -/
theorem claim_C6_witness :
    parseCondition ("u") ("qb") (.str ("f")) (.obj []) =
      .error ("CONDITION_OBJECT_MUST_HAVE_EXACTLY_ONE_KEY") ∧
    parseCondition ("u") ("qb") (.str ("f")) (.date 0) =
      .error ("CONDITION_OBJECT_MUST_HAVE_EXACTLY_ONE_KEY") ∧
    parseCondition ("u") ("qb") (.str ("f")) .null =
      .error ("CONDITION_CANNOT_BE_UNDEFINED_OR_NULL") ∧
    parseCondition ("u") ("qb") (.str ("f")) .undef =
      .error ("CONDITION_CANNOT_BE_UNDEFINED_OR_NULL") ∧
    parseCondition ("u") ("qb") (.str ("f")) (.obj [(("$foo"), .num 1)]) =
      .error ("INVALID_CONDITION_OPERATOR $foo") := by
  obtain ⟨h1, h2, h3, h4, h5⟩ :=
    claim_C6_amended ("u") ("qb") (.str ("f")) (Or.inl rfl) (fun _ => by decide)
  exact ⟨h1 [] (by decide), h2 0, h3, h4, h5 ("$foo") (.num 1) (by decide) (by decide)⟩

/-- Claim C5: validation is fail-fast in the stated order.  (1) An
unrecognized target mode wins over everything, whatever the alias and the
condition.  (2) In fragment mode an invalid field reference wins over any
condition problem.  (3) In operator mode the field reference is never
validated: no find-mode failure carries the alias error.  (4) With a valid
mode and alias, an absent condition fails with the missing-condition error;
a key count other than one fails with the ambiguous-shape error whatever the
keys are; and an absent operand wins over operator recognition.  (5) Only
then is an unrecognized token reported, carrying the literal token; operand
shape checks come last, inside the recognized cases. -/
theorem claim_C5_validation_order (uid : String) (a cond : JSVal) :
    (∀ mode : String, mode ≠ "qb" → mode ≠ "find" →
      parseCondition uid mode a cond = .error ("UNSUPPORTED_CONDITION_FOR_VALUE")) ∧
    (aliasInvalid a = true →
      parseCondition uid ("qb") a cond = .error ("ALIAS_MUST_BE_A_NON_EMPTY_STRING")) ∧
    (∀ e : String, parseCondition uid ("find") a cond = .error e →
      e ≠ "ALIAS_MUST_BE_A_NON_EMPTY_STRING") ∧
    (aliasInvalid a = false → cond.isNullish = true →
      parseCondition uid ("qb") a cond = .error ("CONDITION_CANNOT_BE_UNDEFINED_OR_NULL")) ∧
    (aliasInvalid a = false → ∀ kvs : List (String × JSVal), cond = .obj kvs →
      kvs.length ≠ 1 →
      parseCondition uid ("qb") a cond = .error ("CONDITION_OBJECT_MUST_HAVE_EXACTLY_ONE_KEY")) ∧
    (aliasInvalid a = false → ∀ k : String, cond = .obj [(k, .null)] →
      parseCondition uid ("qb") a cond = .error ("CONDITION_VALUE_CANNOT_BE_UNDEFINED_OR_NULL")) ∧
    (aliasInvalid a = false → ∀ (k : String) (v : JSVal), cond = .obj [(k, v)] →
      recognizedOp k = false → v.isNullish = false →
      parseCondition uid ("qb") a cond = .error ("INVALID_CONDITION_OPERATOR " ++ k)) := by
  refine ⟨?_, ?_, ?_, ?_, ?_, ?_, ?_⟩
  · intro mode h1 h2
    simp [parseCondition, h1, h2]
  · intro ha
    simp [parseCondition, ha]
  · intro e h
    by_cases hn : cond.isNullish = true
    · rw [show parseCondition uid ("find") a cond =
          .error ("CONDITION_CANNOT_BE_UNDEFINED_OR_NULL") from by
        simp [parseCondition, hn]] at h
      injection h with h
      subst h
      decide
    · rw [parseCondition_find_unfold uid _ _ (by simpa using hn)] at h
      exact (parseAfterValidation_error_ne _ _ _ _ _ h).1
  · intro ha hc
    simp [parseCondition, ha, hc]
  · intro ha kvs hk hlen
    subst hk
    rw [parseCondition_qb_unfold uid _ _ ha (by simp [JSVal.isNullish])]
    simp [parseAfterValidation, JSVal.typeofObject, JSVal.isArray, JSVal.jsEntries, hlen]
  · intro ha k hk
    subst hk
    rw [parseCondition_qb_unfold uid _ _ ha (by simp [JSVal.isNullish])]
    simp [parseAfterValidation, JSVal.typeofObject, JSVal.isArray, JSVal.jsEntries,
      keyIsString, JSVal.isNullish]
  · intro ha k v hk hrec hv
    subst hk
    rw [parseCondition_qb_unfold uid _ _ ha (by simp [JSVal.isNullish]),
      parseAfterValidation_single uid _ _ _ _ hv]
    exact parseOperator_unknown uid ("qb") (jsString a) k v hrec

/-- Witness for claim C5 at concrete inputs: an unknown mode together with
an empty alias and a null condition fails with the unsupported-mode error; a
valid fragment target with an empty alias and a null condition fails with
the alias error; with a valid alias the null condition wins; and the
missing-operand error precedes operator recognition. -/
theorem claim_C5_witness :
    parseCondition ("u") ("qbx") (.str ("")) .null =
      .error ("UNSUPPORTED_CONDITION_FOR_VALUE") ∧
    parseCondition ("u") ("qb") (.str ("")) .null =
      .error ("ALIAS_MUST_BE_A_NON_EMPTY_STRING") ∧
    ("CONDITION_CANNOT_BE_UNDEFINED_OR_NULL" : String) ≠ "ALIAS_MUST_BE_A_NON_EMPTY_STRING" ∧
    parseCondition ("u") ("qb") (.str ("f")) .null =
      .error ("CONDITION_CANNOT_BE_UNDEFINED_OR_NULL") ∧
    parseCondition ("u") ("qb") (.str ("f")) (.obj [(("$in"), .num 1), (("$equalTo"), .num 2)]) =
      .error ("CONDITION_OBJECT_MUST_HAVE_EXACTLY_ONE_KEY") ∧
    parseCondition ("u") ("qb") (.str ("f")) (.obj [(("$foo"), .null)]) =
      .error ("CONDITION_VALUE_CANNOT_BE_UNDEFINED_OR_NULL") ∧
    parseCondition ("u") ("qb") (.str ("f")) (.obj [(("$foo"), .num 1)]) =
      .error ("INVALID_CONDITION_OPERATOR $foo") := by
  obtain ⟨h1, -, h3, -, -, -, -⟩ := claim_C5_validation_order ("u") (.str ("")) .null
  obtain ⟨-, h2, -, -, -, -, -⟩ := claim_C5_validation_order ("u") (.str ("")) .null
  obtain ⟨-, -, -, h4, -, -, -⟩ := claim_C5_validation_order ("u") (.str ("f")) .null
  obtain ⟨-, -, -, -, h5, -, -⟩ := claim_C5_validation_order ("u") (.str ("f"))
    (.obj [(("$in"), .num 1), (("$equalTo"), .num 2)])
  obtain ⟨-, -, -, -, -, h6, -⟩ := claim_C5_validation_order ("u") (.str ("f"))
    (.obj [(("$foo"), .null)])
  obtain ⟨-, -, -, -, -, -, h7⟩ := claim_C5_validation_order ("u") (.str ("f"))
    (.obj [(("$foo"), .num 1)])
  refine ⟨h1 ("qbx") (by decide) (by decide), h2 (by decide),
    h3 ("CONDITION_CANNOT_BE_UNDEFINED_OR_NULL") rfl,
    h4 (by decide) (by decide),
    h5 (by decide) _ rfl (by decide),
    h6 (by decide) ("$foo") rfl,
    h7 (by decide) ("$foo") (.num 1) rfl (by decide) (by decide)⟩

/-- splitChar on a list without the separator yields that single part. -/
theorem splitChar_no_sep (sep : Char) (l : List Char) (h : sep ∉ l) :
    splitChar sep l = [l] := by
  induction l with
  | nil => rfl
  | cons c cs ih =>
    have hc : c ≠ sep := fun hq => h (hq ▸ List.mem_cons_self c cs)
    have hcs : sep ∉ cs := fun hq => h (List.mem_cons_of_mem c hq)
    simp [splitChar, hc, ih hcs]

/-- splitChar peels off a separator-free prefix at the first separator. -/
theorem splitChar_append (sep : Char) (r f : List Char) (hr : sep ∉ r) :
    splitChar sep (r ++ sep :: f) = r :: splitChar sep f := by
  induction r with
  | nil => simp [splitChar]
  | cons c cs ih =>
    have hc : c ≠ sep := fun hq => hr (hq ▸ List.mem_cons_self c cs)
    have hcs : sep ∉ cs := fun hq => hr (List.mem_cons_of_mem c hq)
    simp [splitChar, hc, ih hcs]

/-- A key of the single-dot shape relation.field resolves to itself: the
joined relation alias replaces the base alias. -/
theorem resolveFieldAlias_dotted (base k : String) (r f : List Char)
    (hr : '.' ∉ r) (hf : '.' ∉ f) (hk : k.data = r ++ '.' :: f) :
    resolveFieldAlias base k = k := by
  have hmem : '.' ∈ k.data := by rw [hk]; simp
  have hcont : k.data.contains '.' = true := by simpa using hmem
  have hsplit : jsSplitDot k = [String.mk r, String.mk f] := by
    unfold jsSplitDot
    rw [hk, splitChar_append _ _ _ hr, splitChar_no_sep _ _ hf]
    rfl
  unfold resolveFieldAlias
  rw [if_pos hcont, hsplit]
  show String.mk r ++ "." ++ String.mk f = k
  have h2 : (String.mk r ++ "." ++ String.mk f) = String.mk ((r ++ ['.']) ++ f) := rfl
  rw [h2]
  have h3 : (r ++ ['.']) ++ f = r ++ '.' :: f := by simp
  rw [h3, ← hk]

/-- Claim C8: a sort directive entry is applied ascending exactly when its
value is one of the strings ascend, asc, ascending or the number 1; every
other value is applied descending; and a dotted field name of the shape
relation.field is ordered under the alias relation.field itself, while a
dot-free name is ordered under the base alias. -/
theorem claim_C8_sort (base k : String) (v : JSVal) :
    (orderFor v = "ASC" ↔
      (v = .str ("ascend") ∨ v = .str ("asc") ∨ v = .str ("ascending") ∨ v = .num 1)) ∧
    (orderFor v = "ASC" ∨ orderFor v = "DESC") ∧
    applySortOrderQB base [(k, v)] = [(resolveFieldAlias base k, orderFor v)] ∧
    (∀ r f : List Char, '.' ∉ r → '.' ∉ f → k.data = r ++ '.' :: f →
      resolveFieldAlias base k = k) ∧
    ('.' ∉ k.data → resolveFieldAlias base k = base ++ "." ++ k) := by
  refine ⟨?_, ?_, ?_, ?_, ?_⟩
  · cases v <;>
      simp [orderFor, JSVal.isStrLit, JSVal.isNumLit] <;>
      (try split) <;> (try simp_all) <;> tauto
  · unfold orderFor
    split <;> simp
  · rfl
  · exact resolveFieldAlias_dotted base k
  · intro hnd
    unfold resolveFieldAlias
    rw [if_neg (by simpa using hnd)]

/-- Witness for claim C8 at concrete inputs: an asc value under a dotted key
is applied ascending under the relation alias, and the value -1 under a
plain key is applied descending under the base alias. -/
theorem claim_C8_witness :
    applySortOrderQB ("entity") [(("relation.field"), .str ("asc"))] =
      [(("relation.field"), "ASC")] ∧
    applySortOrderQB ("entity") [(("age"), .num (-1))] = [(("entity.age"), "DESC")] := by
  constructor
  · obtain ⟨-, -, h3, h4, -⟩ := claim_C8_sort ("entity") ("relation.field") (.str ("asc"))
    rw [h3, h4 ("relation".data) ("field".data) (by decide) (by decide) (by decide)]
    rfl
  · obtain ⟨-, -, h3, -, h5⟩ := claim_C8_sort ("entity") ("age") (.num (-1))
    rw [h3, h5 (by decide)]
    rfl

/-- Inversion of a successful fragment result. -/
theorem okqb_inv (fr : Fragment) (q : String) (p : Option (List (String × JSVal)))
    (h : (Except.ok (ParseResult.qbRes ⟨q, p⟩) : Except String ParseResult) = .ok (.qbRes fr)) :
    fr.query = q ∧ fr.parameters = p := by
  injection h with h
  injection h with h
  rw [← h]
  exact ⟨rfl, rfl⟩

/-- Fragment-mode outputs of opIn render from a template independent of the
run-unique id. -/
theorem opIn_renders (uid mode aS pp : String) (val : JSVal) (fr : Fragment)
    (h : opIn uid mode aS pp val = .ok (.qbRes fr)) :
    ∃ (qp : List String) (pt : Option (List (String × JSVal))),
      fr.query = renderParts uid qp ∧ fr.parameters = renderNames uid pt ∧
      ∀ (uid2 : String) (fr2 : Fragment), opIn uid2 mode aS pp val = .ok (.qbRes fr2) →
        fr2.query = renderParts uid2 qp ∧ fr2.parameters = renderNames uid2 pt := by
  simp only [opIn] at h
  split at h
  · split at h
    · obtain ⟨hq, hp⟩ := okqb_inv _ _ _ h
      refine ⟨[aS ++ " IN (:...", "_" ++ pp ++ "_" ++ aS ++ ")"],
        some [("_" ++ pp ++ "_" ++ aS, val)], ?_, ?_, ?_⟩
      · rw [hq]; simp [renderParts, paramName, String.append_assoc]
      · rw [hp]; simp [renderNames, paramName, String.append_assoc]
      · intro uid2 fr2 h2
        simp only [opIn] at h2
        rw [if_pos ‹_›, if_pos ‹_›] at h2
        obtain ⟨hq2, hp2⟩ := okqb_inv _ _ _ h2
        constructor
        · rw [hq2]; simp [renderParts, paramName, String.append_assoc]
        · rw [hp2]; simp [renderNames, paramName, String.append_assoc]
    · exact absurd h (by simp)
  · exact absurd h (by simp)

/-- Fragment-mode outputs of opNotIn render from a template independent of the
run-unique id. -/
theorem opNotIn_renders (uid mode aS pp : String) (val : JSVal) (fr : Fragment)
    (h : opNotIn uid mode aS pp val = .ok (.qbRes fr)) :
    ∃ (qp : List String) (pt : Option (List (String × JSVal))),
      fr.query = renderParts uid qp ∧ fr.parameters = renderNames uid pt ∧
      ∀ (uid2 : String) (fr2 : Fragment), opNotIn uid2 mode aS pp val = .ok (.qbRes fr2) →
        fr2.query = renderParts uid2 qp ∧ fr2.parameters = renderNames uid2 pt := by
  simp only [opNotIn] at h
  split at h
  · split at h
    · obtain ⟨hq, hp⟩ := okqb_inv _ _ _ h
      refine ⟨[aS ++ " NOT IN (:...", "_" ++ pp ++ "_" ++ aS ++ ")"], some [("_" ++ pp ++ "_" ++ aS, val)], ?_, ?_, ?_⟩
      · rw [hq]; simp [renderParts, paramName, String.append_assoc]
      · rw [hp]; simp [renderNames, paramName, String.append_assoc]
      · intro uid2 fr2 h2
        simp only [opNotIn] at h2
        rw [if_pos ‹_›, if_pos ‹_›] at h2
        obtain ⟨hq2, hp2⟩ := okqb_inv _ _ _ h2
        constructor
        · rw [hq2]; simp [renderParts, paramName, String.append_assoc]
        · rw [hp2]; simp [renderNames, paramName, String.append_assoc]
    · exact absurd h (by simp)
  · exact absurd h (by simp)

/-- Fragment-mode outputs of opGte render from a template independent of the
run-unique id. -/
theorem opGte_renders (uid mode aS pp : String) (val : JSVal) (fr : Fragment)
    (h : opGte uid mode aS pp val = .ok (.qbRes fr)) :
    ∃ (qp : List String) (pt : Option (List (String × JSVal))),
      fr.query = renderParts uid qp ∧ fr.parameters = renderNames uid pt ∧
      ∀ (uid2 : String) (fr2 : Fragment), opGte uid2 mode aS pp val = .ok (.qbRes fr2) →
        fr2.query = renderParts uid2 qp ∧ fr2.parameters = renderNames uid2 pt := by
  simp only [opGte] at h
  split at h
  · split at h
    · obtain ⟨hq, hp⟩ := okqb_inv _ _ _ h
      refine ⟨[aS ++ " >= :", "_" ++ pp ++ "_" ++ aS], some [("_" ++ pp ++ "_" ++ aS, val)], ?_, ?_, ?_⟩
      · rw [hq]; simp [renderParts, paramName, String.append_assoc]
      · rw [hp]; simp [renderNames, paramName, String.append_assoc]
      · intro uid2 fr2 h2
        simp only [opGte] at h2
        rw [if_pos ‹_›, if_pos ‹_›] at h2
        obtain ⟨hq2, hp2⟩ := okqb_inv _ _ _ h2
        constructor
        · rw [hq2]; simp [renderParts, paramName, String.append_assoc]
        · rw [hp2]; simp [renderNames, paramName, String.append_assoc]
    · exact absurd h (by simp)
  · exact absurd h (by simp)

/-- Fragment-mode outputs of opLte render from a template independent of the
run-unique id. -/
theorem opLte_renders (uid mode aS pp : String) (val : JSVal) (fr : Fragment)
    (h : opLte uid mode aS pp val = .ok (.qbRes fr)) :
    ∃ (qp : List String) (pt : Option (List (String × JSVal))),
      fr.query = renderParts uid qp ∧ fr.parameters = renderNames uid pt ∧
      ∀ (uid2 : String) (fr2 : Fragment), opLte uid2 mode aS pp val = .ok (.qbRes fr2) →
        fr2.query = renderParts uid2 qp ∧ fr2.parameters = renderNames uid2 pt := by
  simp only [opLte] at h
  split at h
  · split at h
    · obtain ⟨hq, hp⟩ := okqb_inv _ _ _ h
      refine ⟨[aS ++ " <= :", "_" ++ pp ++ "_" ++ aS], some [("_" ++ pp ++ "_" ++ aS, val)], ?_, ?_, ?_⟩
      · rw [hq]; simp [renderParts, paramName, String.append_assoc]
      · rw [hp]; simp [renderNames, paramName, String.append_assoc]
      · intro uid2 fr2 h2
        simp only [opLte] at h2
        rw [if_pos ‹_›, if_pos ‹_›] at h2
        obtain ⟨hq2, hp2⟩ := okqb_inv _ _ _ h2
        constructor
        · rw [hq2]; simp [renderParts, paramName, String.append_assoc]
        · rw [hp2]; simp [renderNames, paramName, String.append_assoc]
    · exact absurd h (by simp)
  · exact absurd h (by simp)

/-- Fragment-mode outputs of opGt render from a template independent of the
run-unique id. -/
theorem opGt_renders (uid mode aS pp : String) (val : JSVal) (fr : Fragment)
    (h : opGt uid mode aS pp val = .ok (.qbRes fr)) :
    ∃ (qp : List String) (pt : Option (List (String × JSVal))),
      fr.query = renderParts uid qp ∧ fr.parameters = renderNames uid pt ∧
      ∀ (uid2 : String) (fr2 : Fragment), opGt uid2 mode aS pp val = .ok (.qbRes fr2) →
        fr2.query = renderParts uid2 qp ∧ fr2.parameters = renderNames uid2 pt := by
  simp only [opGt] at h
  split at h
  · split at h
    · obtain ⟨hq, hp⟩ := okqb_inv _ _ _ h
      refine ⟨[aS ++ " > :", "_" ++ pp ++ "_" ++ aS], some [("_" ++ pp ++ "_" ++ aS, val)], ?_, ?_, ?_⟩
      · rw [hq]; simp [renderParts, paramName, String.append_assoc]
      · rw [hp]; simp [renderNames, paramName, String.append_assoc]
      · intro uid2 fr2 h2
        simp only [opGt] at h2
        rw [if_pos ‹_›, if_pos ‹_›] at h2
        obtain ⟨hq2, hp2⟩ := okqb_inv _ _ _ h2
        constructor
        · rw [hq2]; simp [renderParts, paramName, String.append_assoc]
        · rw [hp2]; simp [renderNames, paramName, String.append_assoc]
    · exact absurd h (by simp)
  · exact absurd h (by simp)

/-- Fragment-mode outputs of opLt render from a template independent of the
run-unique id. -/
theorem opLt_renders (uid mode aS pp : String) (val : JSVal) (fr : Fragment)
    (h : opLt uid mode aS pp val = .ok (.qbRes fr)) :
    ∃ (qp : List String) (pt : Option (List (String × JSVal))),
      fr.query = renderParts uid qp ∧ fr.parameters = renderNames uid pt ∧
      ∀ (uid2 : String) (fr2 : Fragment), opLt uid2 mode aS pp val = .ok (.qbRes fr2) →
        fr2.query = renderParts uid2 qp ∧ fr2.parameters = renderNames uid2 pt := by
  simp only [opLt] at h
  split at h
  · split at h
    · obtain ⟨hq, hp⟩ := okqb_inv _ _ _ h
      refine ⟨[aS ++ " < :", "_" ++ pp ++ "_" ++ aS], some [("_" ++ pp ++ "_" ++ aS, val)], ?_, ?_, ?_⟩
      · rw [hq]; simp [renderParts, paramName, String.append_assoc]
      · rw [hp]; simp [renderNames, paramName, String.append_assoc]
      · intro uid2 fr2 h2
        simp only [opLt] at h2
        rw [if_pos ‹_›, if_pos ‹_›] at h2
        obtain ⟨hq2, hp2⟩ := okqb_inv _ _ _ h2
        constructor
        · rw [hq2]; simp [renderParts, paramName, String.append_assoc]
        · rw [hp2]; simp [renderNames, paramName, String.append_assoc]
    · exact absurd h (by simp)
  · exact absurd h (by simp)

/-- Fragment-mode outputs of opEqualTo render from a template independent of the
run-unique id. -/
theorem opEqualTo_renders (uid mode aS pp : String) (val : JSVal) (fr : Fragment)
    (h : opEqualTo uid mode aS pp val = .ok (.qbRes fr)) :
    ∃ (qp : List String) (pt : Option (List (String × JSVal))),
      fr.query = renderParts uid qp ∧ fr.parameters = renderNames uid pt ∧
      ∀ (uid2 : String) (fr2 : Fragment), opEqualTo uid2 mode aS pp val = .ok (.qbRes fr2) →
        fr2.query = renderParts uid2 qp ∧ fr2.parameters = renderNames uid2 pt := by
  simp only [opEqualTo] at h
  split at h
  · split at h
    · obtain ⟨hq, hp⟩ := okqb_inv _ _ _ h
      refine ⟨[aS ++ " = :", "_" ++ pp ++ "_" ++ aS], some [("_" ++ pp ++ "_" ++ aS, val)], ?_, ?_, ?_⟩
      · rw [hq]; simp [renderParts, paramName, String.append_assoc]
      · rw [hp]; simp [renderNames, paramName, String.append_assoc]
      · intro uid2 fr2 h2
        simp only [opEqualTo] at h2
        rw [if_pos ‹_›, if_pos ‹_›] at h2
        obtain ⟨hq2, hp2⟩ := okqb_inv _ _ _ h2
        constructor
        · rw [hq2]; simp [renderParts, paramName, String.append_assoc]
        · rw [hp2]; simp [renderNames, paramName, String.append_assoc]
    · exact absurd h (by simp)
  · exact absurd h (by simp)

/-- Fragment-mode outputs of opNotEqualTo render from a template independent of the
run-unique id. -/
theorem opNotEqualTo_renders (uid mode aS pp : String) (val : JSVal) (fr : Fragment)
    (h : opNotEqualTo uid mode aS pp val = .ok (.qbRes fr)) :
    ∃ (qp : List String) (pt : Option (List (String × JSVal))),
      fr.query = renderParts uid qp ∧ fr.parameters = renderNames uid pt ∧
      ∀ (uid2 : String) (fr2 : Fragment), opNotEqualTo uid2 mode aS pp val = .ok (.qbRes fr2) →
        fr2.query = renderParts uid2 qp ∧ fr2.parameters = renderNames uid2 pt := by
  simp only [opNotEqualTo] at h
  split at h
  · split at h
    · obtain ⟨hq, hp⟩ := okqb_inv _ _ _ h
      refine ⟨[aS ++ " != :", "_" ++ pp ++ "_" ++ aS], some [("_" ++ pp ++ "_" ++ aS, val)], ?_, ?_, ?_⟩
      · rw [hq]; simp [renderParts, paramName, String.append_assoc]
      · rw [hp]; simp [renderNames, paramName, String.append_assoc]
      · intro uid2 fr2 h2
        simp only [opNotEqualTo] at h2
        rw [if_pos ‹_›, if_pos ‹_›] at h2
        obtain ⟨hq2, hp2⟩ := okqb_inv _ _ _ h2
        constructor
        · rw [hq2]; simp [renderParts, paramName, String.append_assoc]
        · rw [hp2]; simp [renderNames, paramName, String.append_assoc]
    · exact absurd h (by simp)
  · exact absurd h (by simp)

/-- Fragment-mode outputs of opBetween render from a template independent of the
run-unique id. -/
theorem opBetween_renders (uid mode aS pp : String) (lo hi : JSVal) (fr : Fragment)
    (h : opBetween uid mode aS pp (.arr [lo, hi]) = .ok (.qbRes fr)) :
    ∃ (qp : List String) (pt : Option (List (String × JSVal))),
      fr.query = renderParts uid qp ∧ fr.parameters = renderNames uid pt ∧
      ∀ (uid2 : String) (fr2 : Fragment), opBetween uid2 mode aS pp (.arr [lo, hi]) = .ok (.qbRes fr2) →
        fr2.query = renderParts uid2 qp ∧ fr2.parameters = renderNames uid2 pt := by
  simp only [opBetween] at h
  split at h
  · split at h
    · obtain ⟨hq, hp⟩ := okqb_inv _ _ _ h
      refine ⟨[aS ++ " BETWEEN :", "_" ++ pp ++ "_" ++ aS ++ "_start AND :", "_" ++ pp ++ "_" ++ aS ++ "_end"], some [("_" ++ pp ++ "_" ++ aS ++ "_start", lo), ("_" ++ pp ++ "_" ++ aS ++ "_end", hi)], ?_, ?_, ?_⟩
      · rw [hq]; simp [renderParts, paramName, String.append_assoc]
      · rw [hp]; simp [renderNames, paramName, String.append_assoc]
      · intro uid2 fr2 h2
        simp only [opBetween] at h2
        rw [if_pos ‹_›, if_pos ‹_›] at h2
        obtain ⟨hq2, hp2⟩ := okqb_inv _ _ _ h2
        constructor
        · rw [hq2]; simp [renderParts, paramName, String.append_assoc]
        · rw [hp2]; simp [renderNames, paramName, String.append_assoc]
    · exact absurd h (by simp)
  · exact absurd h (by simp)

/-- Fragment-mode outputs of opNotBetween render from a template independent of the
run-unique id. -/
theorem opNotBetween_renders (uid mode aS pp : String) (lo hi : JSVal) (fr : Fragment)
    (h : opNotBetween uid mode aS pp (.arr [lo, hi]) = .ok (.qbRes fr)) :
    ∃ (qp : List String) (pt : Option (List (String × JSVal))),
      fr.query = renderParts uid qp ∧ fr.parameters = renderNames uid pt ∧
      ∀ (uid2 : String) (fr2 : Fragment), opNotBetween uid2 mode aS pp (.arr [lo, hi]) = .ok (.qbRes fr2) →
        fr2.query = renderParts uid2 qp ∧ fr2.parameters = renderNames uid2 pt := by
  simp only [opNotBetween] at h
  split at h
  · split at h
    · obtain ⟨hq, hp⟩ := okqb_inv _ _ _ h
      refine ⟨[aS ++ " NOT BETWEEN :", "_" ++ pp ++ "_" ++ aS ++ "_start AND :", "_" ++ pp ++ "_" ++ aS ++ "_end"], some [("_" ++ pp ++ "_" ++ aS ++ "_start", lo), ("_" ++ pp ++ "_" ++ aS ++ "_end", hi)], ?_, ?_, ?_⟩
      · rw [hq]; simp [renderParts, paramName, String.append_assoc]
      · rw [hp]; simp [renderNames, paramName, String.append_assoc]
      · intro uid2 fr2 h2
        simp only [opNotBetween] at h2
        rw [if_pos ‹_›, if_pos ‹_›] at h2
        obtain ⟨hq2, hp2⟩ := okqb_inv _ _ _ h2
        constructor
        · rw [hq2]; simp [renderParts, paramName, String.append_assoc]
        · rw [hp2]; simp [renderNames, paramName, String.append_assoc]
    · exact absurd h (by simp)
  · exact absurd h (by simp)

/-- Fragment-mode outputs of opContains render from a template independent of the
run-unique id. -/
theorem opContains_renders (uid mode aS pp : String) (s : String) (fr : Fragment)
    (h : opContains uid mode aS pp (.str s) = .ok (.qbRes fr)) :
    ∃ (qp : List String) (pt : Option (List (String × JSVal))),
      fr.query = renderParts uid qp ∧ fr.parameters = renderNames uid pt ∧
      ∀ (uid2 : String) (fr2 : Fragment), opContains uid2 mode aS pp (.str s) = .ok (.qbRes fr2) →
        fr2.query = renderParts uid2 qp ∧ fr2.parameters = renderNames uid2 pt := by
  simp only [opContains] at h
  split at h
  · obtain ⟨hq, hp⟩ := okqb_inv _ _ _ h
    refine ⟨[aS ++ " LIKE :", "_" ++ pp ++ "_" ++ aS], some [("_" ++ pp ++ "_" ++ aS, .str ("%" ++ s ++ "%"))], ?_, ?_, ?_⟩
    · rw [hq]; simp [renderParts, paramName, String.append_assoc]
    · rw [hp]; simp [renderNames, paramName, String.append_assoc]
    · intro uid2 fr2 h2
      simp only [opContains] at h2
      rw [if_pos ‹_›] at h2
      obtain ⟨hq2, hp2⟩ := okqb_inv _ _ _ h2
      constructor
      · rw [hq2]; simp [renderParts, paramName, String.append_assoc]
      · rw [hp2]; simp [renderNames, paramName, String.append_assoc]
  · exact absurd h (by simp)

/-- Fragment-mode outputs of opNotContains render from a template independent of the
run-unique id. -/
theorem opNotContains_renders (uid mode aS pp : String) (s : String) (fr : Fragment)
    (h : opNotContains uid mode aS pp (.str s) = .ok (.qbRes fr)) :
    ∃ (qp : List String) (pt : Option (List (String × JSVal))),
      fr.query = renderParts uid qp ∧ fr.parameters = renderNames uid pt ∧
      ∀ (uid2 : String) (fr2 : Fragment), opNotContains uid2 mode aS pp (.str s) = .ok (.qbRes fr2) →
        fr2.query = renderParts uid2 qp ∧ fr2.parameters = renderNames uid2 pt := by
  simp only [opNotContains] at h
  split at h
  · obtain ⟨hq, hp⟩ := okqb_inv _ _ _ h
    refine ⟨[aS ++ " NOT LIKE :", "_" ++ pp ++ "_" ++ aS], some [("_" ++ pp ++ "_" ++ aS, .str ("%" ++ s ++ "%"))], ?_, ?_, ?_⟩
    · rw [hq]; simp [renderParts, paramName, String.append_assoc]
    · rw [hp]; simp [renderNames, paramName, String.append_assoc]
    · intro uid2 fr2 h2
      simp only [opNotContains] at h2
      rw [if_pos ‹_›] at h2
      obtain ⟨hq2, hp2⟩ := okqb_inv _ _ _ h2
      constructor
      · rw [hq2]; simp [renderParts, paramName, String.append_assoc]
      · rw [hp2]; simp [renderNames, paramName, String.append_assoc]
  · exact absurd h (by simp)

/-- Fragment-mode outputs of opIContains render from a template independent of the
run-unique id. -/
theorem opIContains_renders (uid mode aS pp : String) (s : String) (fr : Fragment)
    (h : opIContains uid mode aS pp (.str s) = .ok (.qbRes fr)) :
    ∃ (qp : List String) (pt : Option (List (String × JSVal))),
      fr.query = renderParts uid qp ∧ fr.parameters = renderNames uid pt ∧
      ∀ (uid2 : String) (fr2 : Fragment), opIContains uid2 mode aS pp (.str s) = .ok (.qbRes fr2) →
        fr2.query = renderParts uid2 qp ∧ fr2.parameters = renderNames uid2 pt := by
  simp only [opIContains] at h
  split at h
  · obtain ⟨hq, hp⟩ := okqb_inv _ _ _ h
    refine ⟨[aS ++ " ILIKE :", "_" ++ pp ++ "_" ++ aS], some [("_" ++ pp ++ "_" ++ aS, .str ("%" ++ s ++ "%"))], ?_, ?_, ?_⟩
    · rw [hq]; simp [renderParts, paramName, String.append_assoc]
    · rw [hp]; simp [renderNames, paramName, String.append_assoc]
    · intro uid2 fr2 h2
      simp only [opIContains] at h2
      rw [if_pos ‹_›] at h2
      obtain ⟨hq2, hp2⟩ := okqb_inv _ _ _ h2
      constructor
      · rw [hq2]; simp [renderParts, paramName, String.append_assoc]
      · rw [hp2]; simp [renderNames, paramName, String.append_assoc]
  · exact absurd h (by simp)

/-- Fragment-mode outputs of opNotIContains render from a template independent of the
run-unique id. -/
theorem opNotIContains_renders (uid mode aS pp : String) (s : String) (fr : Fragment)
    (h : opNotIContains uid mode aS pp (.str s) = .ok (.qbRes fr)) :
    ∃ (qp : List String) (pt : Option (List (String × JSVal))),
      fr.query = renderParts uid qp ∧ fr.parameters = renderNames uid pt ∧
      ∀ (uid2 : String) (fr2 : Fragment), opNotIContains uid2 mode aS pp (.str s) = .ok (.qbRes fr2) →
        fr2.query = renderParts uid2 qp ∧ fr2.parameters = renderNames uid2 pt := by
  simp only [opNotIContains] at h
  split at h
  · obtain ⟨hq, hp⟩ := okqb_inv _ _ _ h
    refine ⟨[aS ++ " NOT ILIKE :", "_" ++ pp ++ "_" ++ aS], some [("_" ++ pp ++ "_" ++ aS, .str ("%" ++ s ++ "%"))], ?_, ?_, ?_⟩
    · rw [hq]; simp [renderParts, paramName, String.append_assoc]
    · rw [hp]; simp [renderNames, paramName, String.append_assoc]
    · intro uid2 fr2 h2
      simp only [opNotIContains] at h2
      rw [if_pos ‹_›] at h2
      obtain ⟨hq2, hp2⟩ := okqb_inv _ _ _ h2
      constructor
      · rw [hq2]; simp [renderParts, paramName, String.append_assoc]
      · rw [hp2]; simp [renderNames, paramName, String.append_assoc]
  · exact absurd h (by simp)

/-- Fragment-mode outputs of opStartsWith render from a template independent of the
run-unique id. -/
theorem opStartsWith_renders (uid mode aS pp : String) (s : String) (fr : Fragment)
    (h : opStartsWith uid mode aS pp (.str s) = .ok (.qbRes fr)) :
    ∃ (qp : List String) (pt : Option (List (String × JSVal))),
      fr.query = renderParts uid qp ∧ fr.parameters = renderNames uid pt ∧
      ∀ (uid2 : String) (fr2 : Fragment), opStartsWith uid2 mode aS pp (.str s) = .ok (.qbRes fr2) →
        fr2.query = renderParts uid2 qp ∧ fr2.parameters = renderNames uid2 pt := by
  simp only [opStartsWith] at h
  split at h
  · obtain ⟨hq, hp⟩ := okqb_inv _ _ _ h
    refine ⟨[aS ++ " LIKE :", "_" ++ pp ++ "_" ++ aS], some [("_" ++ pp ++ "_" ++ aS, .str (s ++ "%"))], ?_, ?_, ?_⟩
    · rw [hq]; simp [renderParts, paramName, String.append_assoc]
    · rw [hp]; simp [renderNames, paramName, String.append_assoc]
    · intro uid2 fr2 h2
      simp only [opStartsWith] at h2
      rw [if_pos ‹_›] at h2
      obtain ⟨hq2, hp2⟩ := okqb_inv _ _ _ h2
      constructor
      · rw [hq2]; simp [renderParts, paramName, String.append_assoc]
      · rw [hp2]; simp [renderNames, paramName, String.append_assoc]
  · exact absurd h (by simp)

/-- Fragment-mode outputs of opNotStartsWith render from a template independent of the
run-unique id. -/
theorem opNotStartsWith_renders (uid mode aS pp : String) (s : String) (fr : Fragment)
    (h : opNotStartsWith uid mode aS pp (.str s) = .ok (.qbRes fr)) :
    ∃ (qp : List String) (pt : Option (List (String × JSVal))),
      fr.query = renderParts uid qp ∧ fr.parameters = renderNames uid pt ∧
      ∀ (uid2 : String) (fr2 : Fragment), opNotStartsWith uid2 mode aS pp (.str s) = .ok (.qbRes fr2) →
        fr2.query = renderParts uid2 qp ∧ fr2.parameters = renderNames uid2 pt := by
  simp only [opNotStartsWith] at h
  split at h
  · obtain ⟨hq, hp⟩ := okqb_inv _ _ _ h
    refine ⟨[aS ++ " NOT LIKE :", "_" ++ pp ++ "_" ++ aS], some [("_" ++ pp ++ "_" ++ aS, .str (s ++ "%"))], ?_, ?_, ?_⟩
    · rw [hq]; simp [renderParts, paramName, String.append_assoc]
    · rw [hp]; simp [renderNames, paramName, String.append_assoc]
    · intro uid2 fr2 h2
      simp only [opNotStartsWith] at h2
      rw [if_pos ‹_›] at h2
      obtain ⟨hq2, hp2⟩ := okqb_inv _ _ _ h2
      constructor
      · rw [hq2]; simp [renderParts, paramName, String.append_assoc]
      · rw [hp2]; simp [renderNames, paramName, String.append_assoc]
  · exact absurd h (by simp)

/-- Fragment-mode outputs of opEndsWith render from a template independent of the
run-unique id. -/
theorem opEndsWith_renders (uid mode aS pp : String) (s : String) (fr : Fragment)
    (h : opEndsWith uid mode aS pp (.str s) = .ok (.qbRes fr)) :
    ∃ (qp : List String) (pt : Option (List (String × JSVal))),
      fr.query = renderParts uid qp ∧ fr.parameters = renderNames uid pt ∧
      ∀ (uid2 : String) (fr2 : Fragment), opEndsWith uid2 mode aS pp (.str s) = .ok (.qbRes fr2) →
        fr2.query = renderParts uid2 qp ∧ fr2.parameters = renderNames uid2 pt := by
  simp only [opEndsWith] at h
  split at h
  · obtain ⟨hq, hp⟩ := okqb_inv _ _ _ h
    refine ⟨[aS ++ " LIKE :", "_" ++ pp ++ "_" ++ aS], some [("_" ++ pp ++ "_" ++ aS, .str ("%" ++ s))], ?_, ?_, ?_⟩
    · rw [hq]; simp [renderParts, paramName, String.append_assoc]
    · rw [hp]; simp [renderNames, paramName, String.append_assoc]
    · intro uid2 fr2 h2
      simp only [opEndsWith] at h2
      rw [if_pos ‹_›] at h2
      obtain ⟨hq2, hp2⟩ := okqb_inv _ _ _ h2
      constructor
      · rw [hq2]; simp [renderParts, paramName, String.append_assoc]
      · rw [hp2]; simp [renderNames, paramName, String.append_assoc]
  · exact absurd h (by simp)

/-- Fragment-mode outputs of opNotEndsWith render from a template independent of the
run-unique id. -/
theorem opNotEndsWith_renders (uid mode aS pp : String) (s : String) (fr : Fragment)
    (h : opNotEndsWith uid mode aS pp (.str s) = .ok (.qbRes fr)) :
    ∃ (qp : List String) (pt : Option (List (String × JSVal))),
      fr.query = renderParts uid qp ∧ fr.parameters = renderNames uid pt ∧
      ∀ (uid2 : String) (fr2 : Fragment), opNotEndsWith uid2 mode aS pp (.str s) = .ok (.qbRes fr2) →
        fr2.query = renderParts uid2 qp ∧ fr2.parameters = renderNames uid2 pt := by
  simp only [opNotEndsWith] at h
  split at h
  · obtain ⟨hq, hp⟩ := okqb_inv _ _ _ h
    refine ⟨[aS ++ " NOT LIKE :", "_" ++ pp ++ "_" ++ aS], some [("_" ++ pp ++ "_" ++ aS, .str ("%" ++ s))], ?_, ?_, ?_⟩
    · rw [hq]; simp [renderParts, paramName, String.append_assoc]
    · rw [hp]; simp [renderNames, paramName, String.append_assoc]
    · intro uid2 fr2 h2
      simp only [opNotEndsWith] at h2
      rw [if_pos ‹_›] at h2
      obtain ⟨hq2, hp2⟩ := okqb_inv _ _ _ h2
      constructor
      · rw [hq2]; simp [renderParts, paramName, String.append_assoc]
      · rw [hp2]; simp [renderNames, paramName, String.append_assoc]
  · exact absurd h (by simp)

/-- Fragment-mode outputs of opRegex render from a template independent of the
run-unique id. -/
theorem opRegex_renders (uid mode aS pp : String) (s : String) (fr : Fragment)
    (h : opRegex uid mode aS pp (.str s) = .ok (.qbRes fr)) :
    ∃ (qp : List String) (pt : Option (List (String × JSVal))),
      fr.query = renderParts uid qp ∧ fr.parameters = renderNames uid pt ∧
      ∀ (uid2 : String) (fr2 : Fragment), opRegex uid2 mode aS pp (.str s) = .ok (.qbRes fr2) →
        fr2.query = renderParts uid2 qp ∧ fr2.parameters = renderNames uid2 pt := by
  simp only [opRegex] at h
  split at h
  · obtain ⟨hq, hp⟩ := okqb_inv _ _ _ h
    refine ⟨[aS ++ " ~ :", "_" ++ pp ++ "_" ++ aS], some [("_" ++ pp ++ "_" ++ aS, .str s)], ?_, ?_, ?_⟩
    · rw [hq]; simp [renderParts, paramName, String.append_assoc]
    · rw [hp]; simp [renderNames, paramName, String.append_assoc]
    · intro uid2 fr2 h2
      simp only [opRegex] at h2
      rw [if_pos ‹_›] at h2
      obtain ⟨hq2, hp2⟩ := okqb_inv _ _ _ h2
      constructor
      · rw [hq2]; simp [renderParts, paramName, String.append_assoc]
      · rw [hp2]; simp [renderNames, paramName, String.append_assoc]
  · exact absurd h (by simp)

/-- Fragment-mode outputs of opNotRegex render from a template independent of the
run-unique id. -/
theorem opNotRegex_renders (uid mode aS pp : String) (s : String) (fr : Fragment)
    (h : opNotRegex uid mode aS pp (.str s) = .ok (.qbRes fr)) :
    ∃ (qp : List String) (pt : Option (List (String × JSVal))),
      fr.query = renderParts uid qp ∧ fr.parameters = renderNames uid pt ∧
      ∀ (uid2 : String) (fr2 : Fragment), opNotRegex uid2 mode aS pp (.str s) = .ok (.qbRes fr2) →
        fr2.query = renderParts uid2 qp ∧ fr2.parameters = renderNames uid2 pt := by
  simp only [opNotRegex] at h
  split at h
  · obtain ⟨hq, hp⟩ := okqb_inv _ _ _ h
    refine ⟨[aS ++ " !~ :", "_" ++ pp ++ "_" ++ aS], some [("_" ++ pp ++ "_" ++ aS, .str s)], ?_, ?_, ?_⟩
    · rw [hq]; simp [renderParts, paramName, String.append_assoc]
    · rw [hp]; simp [renderNames, paramName, String.append_assoc]
    · intro uid2 fr2 h2
      simp only [opNotRegex] at h2
      rw [if_pos ‹_›] at h2
      obtain ⟨hq2, hp2⟩ := okqb_inv _ _ _ h2
      constructor
      · rw [hq2]; simp [renderParts, paramName, String.append_assoc]
      · rw [hp2]; simp [renderNames, paramName, String.append_assoc]
  · exact absurd h (by simp)

/-- Fragment-mode outputs of opRegexi render from a template independent of the
run-unique id. -/
theorem opRegexi_renders (uid mode aS pp : String) (s : String) (fr : Fragment)
    (h : opRegexi uid mode aS pp (.str s) = .ok (.qbRes fr)) :
    ∃ (qp : List String) (pt : Option (List (String × JSVal))),
      fr.query = renderParts uid qp ∧ fr.parameters = renderNames uid pt ∧
      ∀ (uid2 : String) (fr2 : Fragment), opRegexi uid2 mode aS pp (.str s) = .ok (.qbRes fr2) →
        fr2.query = renderParts uid2 qp ∧ fr2.parameters = renderNames uid2 pt := by
  simp only [opRegexi] at h
  split at h
  · obtain ⟨hq, hp⟩ := okqb_inv _ _ _ h
    refine ⟨[aS ++ " ~* :", "_" ++ pp ++ "_" ++ aS], some [("_" ++ pp ++ "_" ++ aS, .str s)], ?_, ?_, ?_⟩
    · rw [hq]; simp [renderParts, paramName, String.append_assoc]
    · rw [hp]; simp [renderNames, paramName, String.append_assoc]
    · intro uid2 fr2 h2
      simp only [opRegexi] at h2
      rw [if_pos ‹_›] at h2
      obtain ⟨hq2, hp2⟩ := okqb_inv _ _ _ h2
      constructor
      · rw [hq2]; simp [renderParts, paramName, String.append_assoc]
      · rw [hp2]; simp [renderNames, paramName, String.append_assoc]
  · exact absurd h (by simp)

/-- Fragment-mode outputs of opNotRegexi render from a template independent of the
run-unique id. -/
theorem opNotRegexi_renders (uid mode aS pp : String) (s : String) (fr : Fragment)
    (h : opNotRegexi uid mode aS pp (.str s) = .ok (.qbRes fr)) :
    ∃ (qp : List String) (pt : Option (List (String × JSVal))),
      fr.query = renderParts uid qp ∧ fr.parameters = renderNames uid pt ∧
      ∀ (uid2 : String) (fr2 : Fragment), opNotRegexi uid2 mode aS pp (.str s) = .ok (.qbRes fr2) →
        fr2.query = renderParts uid2 qp ∧ fr2.parameters = renderNames uid2 pt := by
  simp only [opNotRegexi] at h
  split at h
  · obtain ⟨hq, hp⟩ := okqb_inv _ _ _ h
    refine ⟨[aS ++ " !~* :", "_" ++ pp ++ "_" ++ aS], some [("_" ++ pp ++ "_" ++ aS, .str s)], ?_, ?_, ?_⟩
    · rw [hq]; simp [renderParts, paramName, String.append_assoc]
    · rw [hp]; simp [renderNames, paramName, String.append_assoc]
    · intro uid2 fr2 h2
      simp only [opNotRegexi] at h2
      rw [if_pos ‹_›] at h2
      obtain ⟨hq2, hp2⟩ := okqb_inv _ _ _ h2
      constructor
      · rw [hq2]; simp [renderParts, paramName, String.append_assoc]
      · rw [hp2]; simp [renderNames, paramName, String.append_assoc]
  · exact absurd h (by simp)

/-- Fragment-mode outputs of opJsonContains render from a template independent of the
run-unique id. -/
theorem opJsonContains_renders (uid mode aS pp : String) (val : JSVal) (fr : Fragment)
    (h : opJsonContains uid mode aS pp val = .ok (.qbRes fr)) :
    ∃ (qp : List String) (pt : Option (List (String × JSVal))),
      fr.query = renderParts uid qp ∧ fr.parameters = renderNames uid pt ∧
      ∀ (uid2 : String) (fr2 : Fragment), opJsonContains uid2 mode aS pp val = .ok (.qbRes fr2) →
        fr2.query = renderParts uid2 qp ∧ fr2.parameters = renderNames uid2 pt := by
  simp only [opJsonContains] at h
  split at h
  · obtain ⟨hq, hp⟩ := okqb_inv _ _ _ h
    refine ⟨[aS ++ " @> :", "_" ++ pp ++ "_" ++ aS], some [("_" ++ pp ++ "_" ++ aS, .str (jsonStringify val))], ?_, ?_, ?_⟩
    · rw [hq]; simp [renderParts, paramName, String.append_assoc]
    · rw [hp]; simp [renderNames, paramName, String.append_assoc]
    · intro uid2 fr2 h2
      simp only [opJsonContains] at h2
      rw [if_pos ‹_›] at h2
      obtain ⟨hq2, hp2⟩ := okqb_inv _ _ _ h2
      constructor
      · rw [hq2]; simp [renderParts, paramName, String.append_assoc]
      · rw [hp2]; simp [renderNames, paramName, String.append_assoc]
  · exact absurd h (by simp)

/-- Fragment-mode outputs of opJsonContained render from a template independent of the
run-unique id. -/
theorem opJsonContained_renders (uid mode aS pp : String) (val : JSVal) (fr : Fragment)
    (h : opJsonContained uid mode aS pp val = .ok (.qbRes fr)) :
    ∃ (qp : List String) (pt : Option (List (String × JSVal))),
      fr.query = renderParts uid qp ∧ fr.parameters = renderNames uid pt ∧
      ∀ (uid2 : String) (fr2 : Fragment), opJsonContained uid2 mode aS pp val = .ok (.qbRes fr2) →
        fr2.query = renderParts uid2 qp ∧ fr2.parameters = renderNames uid2 pt := by
  simp only [opJsonContained] at h
  split at h
  · obtain ⟨hq, hp⟩ := okqb_inv _ _ _ h
    refine ⟨[aS ++ " <@ :", "_" ++ pp ++ "_" ++ aS], some [("_" ++ pp ++ "_" ++ aS, .str (jsonStringify val))], ?_, ?_, ?_⟩
    · rw [hq]; simp [renderParts, paramName, String.append_assoc]
    · rw [hp]; simp [renderNames, paramName, String.append_assoc]
    · intro uid2 fr2 h2
      simp only [opJsonContained] at h2
      rw [if_pos ‹_›] at h2
      obtain ⟨hq2, hp2⟩ := okqb_inv _ _ _ h2
      constructor
      · rw [hq2]; simp [renderParts, paramName, String.append_assoc]
      · rw [hp2]; simp [renderNames, paramName, String.append_assoc]
  · exact absurd h (by simp)

/-- Fragment-mode outputs of opJsonEquals render from a template independent of the
run-unique id. -/
theorem opJsonEquals_renders (uid mode aS pp : String) (val : JSVal) (fr : Fragment)
    (h : opJsonEquals uid mode aS pp val = .ok (.qbRes fr)) :
    ∃ (qp : List String) (pt : Option (List (String × JSVal))),
      fr.query = renderParts uid qp ∧ fr.parameters = renderNames uid pt ∧
      ∀ (uid2 : String) (fr2 : Fragment), opJsonEquals uid2 mode aS pp val = .ok (.qbRes fr2) →
        fr2.query = renderParts uid2 qp ∧ fr2.parameters = renderNames uid2 pt := by
  simp only [opJsonEquals] at h
  split at h
  · obtain ⟨hq, hp⟩ := okqb_inv _ _ _ h
    refine ⟨[aS ++ " = :", "_" ++ pp ++ "_" ++ aS], some [("_" ++ pp ++ "_" ++ aS, .str (jsonStringify val))], ?_, ?_, ?_⟩
    · rw [hq]; simp [renderParts, paramName, String.append_assoc]
    · rw [hp]; simp [renderNames, paramName, String.append_assoc]
    · intro uid2 fr2 h2
      simp only [opJsonEquals] at h2
      rw [if_pos ‹_›] at h2
      obtain ⟨hq2, hp2⟩ := okqb_inv _ _ _ h2
      constructor
      · rw [hq2]; simp [renderParts, paramName, String.append_assoc]
      · rw [hp2]; simp [renderNames, paramName, String.append_assoc]
  · exact absurd h (by simp)

/-- Fragment-mode outputs of opJsonHasKey render from a template independent of the
run-unique id. -/
theorem opJsonHasKey_renders (uid mode aS pp : String) (val : JSVal) (fr : Fragment)
    (h : opJsonHasKey uid mode aS pp val = .ok (.qbRes fr)) :
    ∃ (qp : List String) (pt : Option (List (String × JSVal))),
      fr.query = renderParts uid qp ∧ fr.parameters = renderNames uid pt ∧
      ∀ (uid2 : String) (fr2 : Fragment), opJsonHasKey uid2 mode aS pp val = .ok (.qbRes fr2) →
        fr2.query = renderParts uid2 qp ∧ fr2.parameters = renderNames uid2 pt := by
  simp only [opJsonHasKey] at h
  split at h
  · obtain ⟨hq, hp⟩ := okqb_inv _ _ _ h
    refine ⟨[aS ++ " ? :", "_" ++ pp ++ "_" ++ aS ++ "_key"], some [("_" ++ pp ++ "_" ++ aS ++ "_key", val)], ?_, ?_, ?_⟩
    · rw [hq]; simp [renderParts, paramName, String.append_assoc]
    · rw [hp]; simp [renderNames, paramName, String.append_assoc]
    · intro uid2 fr2 h2
      simp only [opJsonHasKey] at h2
      rw [if_pos ‹_›] at h2
      obtain ⟨hq2, hp2⟩ := okqb_inv _ _ _ h2
      constructor
      · rw [hq2]; simp [renderParts, paramName, String.append_assoc]
      · rw [hp2]; simp [renderNames, paramName, String.append_assoc]
  · exact absurd h (by simp)

/-- Claim C7: compilation is deterministic up to the generated unique id.
Two successful fragment-mode runs of the same condition and field reference
under different unique ids produce query strings that are identical after
erasing the id (they render from the same part list), parameter names that
are identical after erasing the id prefix (the same tails), and equal bound
parameter values. -/
theorem claim_C7_deterministic (uid1 uid2 : String) (a cond : JSVal) (f1 f2 : Fragment)
    (h1 : parseCondition uid1 ("qb") a cond = .ok (.qbRes f1))
    (h2 : parseCondition uid2 ("qb") a cond = .ok (.qbRes f2)) :
    ∃ (qp : List String) (pt : Option (List (String × JSVal))),
      f1.query = renderParts uid1 qp ∧ f2.query = renderParts uid2 qp ∧
      f1.parameters = renderNames uid1 pt ∧ f2.parameters = renderNames uid2 pt := by
  have hA : aliasInvalid a = false := by
    cases hx : aliasInvalid a
    · rfl
    · rw [show parseCondition uid1 ("qb") a cond = .error ("ALIAS_MUST_BE_A_NON_EMPTY_STRING")
          from by simp [parseCondition, hx]] at h1
      exact Except.noConfusion h1
  have hN : cond.isNullish = false := by
    cases hx : cond.isNullish
    · rfl
    · rw [show parseCondition uid1 ("qb") a cond =
            .error ("CONDITION_CANNOT_BE_UNDEFINED_OR_NULL")
          from by simp [parseCondition, hA, hx]] at h1
      exact Except.noConfusion h1
  rw [parseCondition_qb_unfold uid1 _ _ hA hN] at h1
  rw [parseCondition_qb_unfold uid2 _ _ hA hN] at h2
  cases cond with
  | null => simp [JSVal.isNullish] at hN
  | undef => simp [JSVal.isNullish] at hN
  | date t =>
    rw [show parseAfterValidation uid1 ("qb") a (.date t) =
        .error ("CONDITION_OBJECT_MUST_HAVE_EXACTLY_ONE_KEY") from rfl] at h1
    exact Except.noConfusion h1
  | num n =>
    rw [show parseAfterValidation uid1 ("qb") a (.num n) =
        .ok (.qbRes ⟨jsString a ++ " = :" ++ paramName uid1 ("eq") (jsString a),
          some [(paramName uid1 ("eq") (jsString a), .num n)]⟩) from rfl] at h1
    rw [show parseAfterValidation uid2 ("qb") a (.num n) =
        .ok (.qbRes ⟨jsString a ++ " = :" ++ paramName uid2 ("eq") (jsString a),
          some [(paramName uid2 ("eq") (jsString a), .num n)]⟩) from rfl] at h2
    obtain ⟨hq1, hp1⟩ := okqb_inv _ _ _ h1
    obtain ⟨hq2, hp2⟩ := okqb_inv _ _ _ h2
    refine ⟨[jsString a ++ " = :", "_" ++ "eq" ++ "_" ++ jsString a],
      some [("_" ++ "eq" ++ "_" ++ jsString a, .num n)], ?_, ?_, ?_, ?_⟩ <;>
      simp [hq1, hq2, hp1, hp2, renderParts, renderNames, paramName, String.append_assoc]
  | bool b =>
    rw [show parseAfterValidation uid1 ("qb") a (.bool b) =
        .ok (.qbRes ⟨jsString a ++ " = :" ++ paramName uid1 ("eq") (jsString a),
          some [(paramName uid1 ("eq") (jsString a), .bool b)]⟩) from rfl] at h1
    rw [show parseAfterValidation uid2 ("qb") a (.bool b) =
        .ok (.qbRes ⟨jsString a ++ " = :" ++ paramName uid2 ("eq") (jsString a),
          some [(paramName uid2 ("eq") (jsString a), .bool b)]⟩) from rfl] at h2
    obtain ⟨hq1, hp1⟩ := okqb_inv _ _ _ h1
    obtain ⟨hq2, hp2⟩ := okqb_inv _ _ _ h2
    refine ⟨[jsString a ++ " = :", "_" ++ "eq" ++ "_" ++ jsString a],
      some [("_" ++ "eq" ++ "_" ++ jsString a, .bool b)], ?_, ?_, ?_, ?_⟩ <;>
      simp [hq1, hq2, hp1, hp2, renderParts, renderNames, paramName, String.append_assoc]
  | str s =>
    by_cases hs1 : s = "$isNull"
    · subst hs1
      rw [show parseAfterValidation uid1 ("qb") a (.str ("$isNull")) =
          .ok (.qbRes ⟨jsString a ++ " IS NULL", none⟩) from rfl] at h1
      rw [show parseAfterValidation uid2 ("qb") a (.str ("$isNull")) =
          .ok (.qbRes ⟨jsString a ++ " IS NULL", none⟩) from rfl] at h2
      obtain ⟨hq1, hp1⟩ := okqb_inv _ _ _ h1
      obtain ⟨hq2, hp2⟩ := okqb_inv _ _ _ h2
      exact ⟨[jsString a ++ " IS NULL"], none, hq1, hq2, hp1, hp2⟩
    · by_cases hs2 : s = "$isNotNull"
      · subst hs2
        rw [show parseAfterValidation uid1 ("qb") a (.str ("$isNotNull")) =
            .ok (.qbRes ⟨jsString a ++ " IS NOT NULL", none⟩) from rfl] at h1
        rw [show parseAfterValidation uid2 ("qb") a (.str ("$isNotNull")) =
            .ok (.qbRes ⟨jsString a ++ " IS NOT NULL", none⟩) from rfl] at h2
        obtain ⟨hq1, hp1⟩ := okqb_inv _ _ _ h1
        obtain ⟨hq2, hp2⟩ := okqb_inv _ _ _ h2
        exact ⟨[jsString a ++ " IS NOT NULL"], none, hq1, hq2, hp1, hp2⟩
      · have e1 : parseAfterValidation uid1 ("qb") a (.str s) =
            .ok (.qbRes ⟨jsString a ++ " = :" ++ paramName uid1 ("eq") (jsString a),
              some [(paramName uid1 ("eq") (jsString a), .str s)]⟩) := by
          simp [parseAfterValidation, JSVal.typeofObject, JSVal.isArray, JSVal.isStrLit,
            JSVal.isScalarEqVal, hs1, hs2]
        have e2 : parseAfterValidation uid2 ("qb") a (.str s) =
            .ok (.qbRes ⟨jsString a ++ " = :" ++ paramName uid2 ("eq") (jsString a),
              some [(paramName uid2 ("eq") (jsString a), .str s)]⟩) := by
          simp [parseAfterValidation, JSVal.typeofObject, JSVal.isArray, JSVal.isStrLit,
            JSVal.isScalarEqVal, hs1, hs2]
        rw [e1] at h1
        rw [e2] at h2
        obtain ⟨hq1, hp1⟩ := okqb_inv _ _ _ h1
        obtain ⟨hq2, hp2⟩ := okqb_inv _ _ _ h2
        refine ⟨[jsString a ++ " = :", "_" ++ "eq" ++ "_" ++ jsString a],
          some [("_" ++ "eq" ++ "_" ++ jsString a, .str s)], ?_, ?_, ?_, ?_⟩ <;>
          simp [hq1, hq2, hp1, hp2, renderParts, renderNames, paramName, String.append_assoc]
  | arr xs =>
    by_cases hall : xs.all JSVal.isNumStrDate
    · have e1 : parseAfterValidation uid1 ("qb") a (.arr xs) =
          .ok (.qbRes ⟨jsString a ++ " IN (:..." ++ paramName uid1 ("in") (jsString a) ++ ")",
            some [(paramName uid1 ("in") (jsString a), .arr xs)]⟩) := by
        simp [parseAfterValidation, JSVal.typeofObject, JSVal.isArray, JSVal.arrElems, hall]
      have e2 : parseAfterValidation uid2 ("qb") a (.arr xs) =
          .ok (.qbRes ⟨jsString a ++ " IN (:..." ++ paramName uid2 ("in") (jsString a) ++ ")",
            some [(paramName uid2 ("in") (jsString a), .arr xs)]⟩) := by
        simp [parseAfterValidation, JSVal.typeofObject, JSVal.isArray, JSVal.arrElems, hall]
      rw [e1] at h1
      rw [e2] at h2
      obtain ⟨hq1, hp1⟩ := okqb_inv _ _ _ h1
      obtain ⟨hq2, hp2⟩ := okqb_inv _ _ _ h2
      refine ⟨[jsString a ++ " IN (:...", "_" ++ "in" ++ "_" ++ jsString a ++ ")"],
        some [("_" ++ "in" ++ "_" ++ jsString a, .arr xs)], ?_, ?_, ?_, ?_⟩ <;>
        simp [hq1, hq2, hp1, hp2, renderParts, renderNames, paramName, String.append_assoc]
    · have e1 : parseAfterValidation uid1 ("qb") a (.arr xs) = .error ("INVALID_CONDITION") := by
        simp [parseAfterValidation, JSVal.typeofObject, JSVal.isArray, JSVal.arrElems,
          JSVal.isStrLit, JSVal.isScalarEqVal, hall]
      rw [e1] at h1
      exact Except.noConfusion h1
  | obj kvs =>
    by_cases hlen : kvs.length = 1
    · obtain ⟨⟨k, v⟩, hkv⟩ := List.length_eq_one.mp hlen
      subst hkv
      by_cases hv : v.isNullish = true
      · have e1 : parseAfterValidation uid1 ("qb") a (.obj [(k, v)]) =
            .error ("CONDITION_VALUE_CANNOT_BE_UNDEFINED_OR_NULL") := by
          simp [parseAfterValidation, JSVal.typeofObject, JSVal.isArray, JSVal.jsEntries,
            keyIsString, hv]
        rw [e1] at h1
        exact Except.noConfusion h1
      · rw [parseAfterValidation_single uid1 _ _ _ _ (by simpa using hv)] at h1
        rw [parseAfterValidation_single uid2 _ _ _ _ (by simpa using hv)] at h2
        rcases parseOperator_cases uid1 ("qb") (jsString a) k v with
          ⟨hop, heq⟩ |
          ⟨hop, heq⟩ |
          ⟨hop, heq⟩ |
          ⟨hop, heq⟩ |
          ⟨hop, heq⟩ |
          ⟨hop, heq⟩ |
          ⟨hop, heq⟩ |
          ⟨hop, heq⟩ |
          ⟨hop, heq⟩ |
          ⟨hop, heq⟩ |
          ⟨hop, heq⟩ |
          ⟨hop, heq⟩ |
          ⟨hop, heq⟩ |
          ⟨hop, heq⟩ |
          ⟨hop, heq⟩ |
          ⟨hop, heq⟩ |
          ⟨hop, heq⟩ |
          ⟨hop, heq⟩ |
          ⟨hop, heq⟩ |
          ⟨hop, heq⟩ |
          ⟨hop, heq⟩ |
          ⟨hop, heq⟩ |
          ⟨hop, heq⟩ |
          ⟨hop, heq⟩ |
          ⟨hop, heq⟩ |
          ⟨hop, heq⟩ |
          ⟨_, heq⟩
        · subst hop
          rw [heq] at h1
          rw [show parseOperator uid2 ("qb") (jsString a) ("$in") v =
              opIn uid2 ("qb") (jsString a) ("in") v from rfl] at h2
          obtain ⟨qp, pt, hq1, hp1, hgen⟩ := opIn_renders _ _ _ _ _ _ h1
          obtain ⟨hq2, hp2⟩ := hgen uid2 f2 h2
          exact ⟨qp, pt, hq1, hq2, hp1, hp2⟩
        · subst hop
          rw [heq] at h1
          rw [show parseOperator uid2 ("qb") (jsString a) ("$notIn") v =
              opNotIn uid2 ("qb") (jsString a) ("notIn") v from rfl] at h2
          obtain ⟨qp, pt, hq1, hp1, hgen⟩ := opNotIn_renders _ _ _ _ _ _ h1
          obtain ⟨hq2, hp2⟩ := hgen uid2 f2 h2
          exact ⟨qp, pt, hq1, hq2, hp1, hp2⟩
        · subst hop
          rw [heq] at h1
          rw [show parseOperator uid2 ("qb") (jsString a) ("$gte") v =
              opGte uid2 ("qb") (jsString a) ("gte") v from rfl] at h2
          obtain ⟨qp, pt, hq1, hp1, hgen⟩ := opGte_renders _ _ _ _ _ _ h1
          obtain ⟨hq2, hp2⟩ := hgen uid2 f2 h2
          exact ⟨qp, pt, hq1, hq2, hp1, hp2⟩
        · subst hop
          rw [heq] at h1
          rw [show parseOperator uid2 ("qb") (jsString a) ("$lte") v =
              opLte uid2 ("qb") (jsString a) ("lte") v from rfl] at h2
          obtain ⟨qp, pt, hq1, hp1, hgen⟩ := opLte_renders _ _ _ _ _ _ h1
          obtain ⟨hq2, hp2⟩ := hgen uid2 f2 h2
          exact ⟨qp, pt, hq1, hq2, hp1, hp2⟩
        · subst hop
          rw [heq] at h1
          rw [show parseOperator uid2 ("qb") (jsString a) ("$gt") v =
              opGt uid2 ("qb") (jsString a) ("gt") v from rfl] at h2
          obtain ⟨qp, pt, hq1, hp1, hgen⟩ := opGt_renders _ _ _ _ _ _ h1
          obtain ⟨hq2, hp2⟩ := hgen uid2 f2 h2
          exact ⟨qp, pt, hq1, hq2, hp1, hp2⟩
        · subst hop
          rw [heq] at h1
          rw [show parseOperator uid2 ("qb") (jsString a) ("$lt") v =
              opLt uid2 ("qb") (jsString a) ("lt") v from rfl] at h2
          obtain ⟨qp, pt, hq1, hp1, hgen⟩ := opLt_renders _ _ _ _ _ _ h1
          obtain ⟨hq2, hp2⟩ := hgen uid2 f2 h2
          exact ⟨qp, pt, hq1, hq2, hp1, hp2⟩
        · subst hop
          rw [heq] at h1
          rw [show parseOperator uid2 ("qb") (jsString a) ("$between") v =
              opBetween uid2 ("qb") (jsString a) ("between") v from rfl] at h2
          cases v <;>
            first
              | (rename_i xs
                 rcases xs with _ | ⟨lo, _ | ⟨hi, _ | ⟨w, rest⟩⟩⟩
                 · exfalso; simp [opBetween] at h1
                 · exfalso; simp [opBetween] at h1
                 · obtain ⟨qp, pt, hq1, hp1, hgen⟩ := opBetween_renders _ _ _ _ _ _ _ h1
                   obtain ⟨hq2, hp2⟩ := hgen uid2 f2 h2
                   exact ⟨qp, pt, hq1, hq2, hp1, hp2⟩
                 · exfalso; simp [opBetween] at h1)
              | (exfalso; simp [opBetween] at h1)
        · subst hop
          rw [heq] at h1
          rw [show parseOperator uid2 ("qb") (jsString a) ("$notBetween") v =
              opNotBetween uid2 ("qb") (jsString a) ("notBetween") v from rfl] at h2
          cases v <;>
            first
              | (rename_i xs
                 rcases xs with _ | ⟨lo, _ | ⟨hi, _ | ⟨w, rest⟩⟩⟩
                 · exfalso; simp [opNotBetween] at h1
                 · exfalso; simp [opNotBetween] at h1
                 · obtain ⟨qp, pt, hq1, hp1, hgen⟩ := opNotBetween_renders _ _ _ _ _ _ _ h1
                   obtain ⟨hq2, hp2⟩ := hgen uid2 f2 h2
                   exact ⟨qp, pt, hq1, hq2, hp1, hp2⟩
                 · exfalso; simp [opNotBetween] at h1)
              | (exfalso; simp [opNotBetween] at h1)
        · subst hop
          rw [heq] at h1
          rw [show parseOperator uid2 ("qb") (jsString a) ("$contains") v =
              opContains uid2 ("qb") (jsString a) ("contains") v from rfl] at h2
          cases v <;>
            first
              | (rename_i s
                 obtain ⟨qp, pt, hq1, hp1, hgen⟩ := opContains_renders _ _ _ _ _ _ h1
                 obtain ⟨hq2, hp2⟩ := hgen uid2 f2 h2
                 exact ⟨qp, pt, hq1, hq2, hp1, hp2⟩)
              | (exfalso; simp [opContains] at h1)
        · subst hop
          rw [heq] at h1
          rw [show parseOperator uid2 ("qb") (jsString a) ("$notContains") v =
              opNotContains uid2 ("qb") (jsString a) ("notContains") v from rfl] at h2
          cases v <;>
            first
              | (rename_i s
                 obtain ⟨qp, pt, hq1, hp1, hgen⟩ := opNotContains_renders _ _ _ _ _ _ h1
                 obtain ⟨hq2, hp2⟩ := hgen uid2 f2 h2
                 exact ⟨qp, pt, hq1, hq2, hp1, hp2⟩)
              | (exfalso; simp [opNotContains] at h1)
        · subst hop
          rw [heq] at h1
          rw [show parseOperator uid2 ("qb") (jsString a) ("$iContains") v =
              opIContains uid2 ("qb") (jsString a) ("iContains") v from rfl] at h2
          cases v <;>
            first
              | (rename_i s
                 obtain ⟨qp, pt, hq1, hp1, hgen⟩ := opIContains_renders _ _ _ _ _ _ h1
                 obtain ⟨hq2, hp2⟩ := hgen uid2 f2 h2
                 exact ⟨qp, pt, hq1, hq2, hp1, hp2⟩)
              | (exfalso; simp [opIContains] at h1)
        · subst hop
          rw [heq] at h1
          rw [show parseOperator uid2 ("qb") (jsString a) ("$notIContains") v =
              opNotIContains uid2 ("qb") (jsString a) ("notIContains") v from rfl] at h2
          cases v <;>
            first
              | (rename_i s
                 obtain ⟨qp, pt, hq1, hp1, hgen⟩ := opNotIContains_renders _ _ _ _ _ _ h1
                 obtain ⟨hq2, hp2⟩ := hgen uid2 f2 h2
                 exact ⟨qp, pt, hq1, hq2, hp1, hp2⟩)
              | (exfalso; simp [opNotIContains] at h1)
        · subst hop
          rw [heq] at h1
          rw [show parseOperator uid2 ("qb") (jsString a) ("$startsWith") v =
              opStartsWith uid2 ("qb") (jsString a) ("startsWith") v from rfl] at h2
          cases v <;>
            first
              | (rename_i s
                 obtain ⟨qp, pt, hq1, hp1, hgen⟩ := opStartsWith_renders _ _ _ _ _ _ h1
                 obtain ⟨hq2, hp2⟩ := hgen uid2 f2 h2
                 exact ⟨qp, pt, hq1, hq2, hp1, hp2⟩)
              | (exfalso; simp [opStartsWith] at h1)
        · subst hop
          rw [heq] at h1
          rw [show parseOperator uid2 ("qb") (jsString a) ("$notStartsWith") v =
              opNotStartsWith uid2 ("qb") (jsString a) ("notStartsWith") v from rfl] at h2
          cases v <;>
            first
              | (rename_i s
                 obtain ⟨qp, pt, hq1, hp1, hgen⟩ := opNotStartsWith_renders _ _ _ _ _ _ h1
                 obtain ⟨hq2, hp2⟩ := hgen uid2 f2 h2
                 exact ⟨qp, pt, hq1, hq2, hp1, hp2⟩)
              | (exfalso; simp [opNotStartsWith] at h1)
        · subst hop
          rw [heq] at h1
          rw [show parseOperator uid2 ("qb") (jsString a) ("$endsWith") v =
              opEndsWith uid2 ("qb") (jsString a) ("endsWith") v from rfl] at h2
          cases v <;>
            first
              | (rename_i s
                 obtain ⟨qp, pt, hq1, hp1, hgen⟩ := opEndsWith_renders _ _ _ _ _ _ h1
                 obtain ⟨hq2, hp2⟩ := hgen uid2 f2 h2
                 exact ⟨qp, pt, hq1, hq2, hp1, hp2⟩)
              | (exfalso; simp [opEndsWith] at h1)
        · subst hop
          rw [heq] at h1
          rw [show parseOperator uid2 ("qb") (jsString a) ("$notEndsWith") v =
              opNotEndsWith uid2 ("qb") (jsString a) ("notEndsWith") v from rfl] at h2
          cases v <;>
            first
              | (rename_i s
                 obtain ⟨qp, pt, hq1, hp1, hgen⟩ := opNotEndsWith_renders _ _ _ _ _ _ h1
                 obtain ⟨hq2, hp2⟩ := hgen uid2 f2 h2
                 exact ⟨qp, pt, hq1, hq2, hp1, hp2⟩)
              | (exfalso; simp [opNotEndsWith] at h1)
        · subst hop
          rw [heq] at h1
          rw [show parseOperator uid2 ("qb") (jsString a) ("$equalTo") v =
              opEqualTo uid2 ("qb") (jsString a) ("equalTo") v from rfl] at h2
          obtain ⟨qp, pt, hq1, hp1, hgen⟩ := opEqualTo_renders _ _ _ _ _ _ h1
          obtain ⟨hq2, hp2⟩ := hgen uid2 f2 h2
          exact ⟨qp, pt, hq1, hq2, hp1, hp2⟩
        · subst hop
          rw [heq] at h1
          rw [show parseOperator uid2 ("qb") (jsString a) ("$notEqualTo") v =
              opNotEqualTo uid2 ("qb") (jsString a) ("notEqualTo") v from rfl] at h2
          obtain ⟨qp, pt, hq1, hp1, hgen⟩ := opNotEqualTo_renders _ _ _ _ _ _ h1
          obtain ⟨hq2, hp2⟩ := hgen uid2 f2 h2
          exact ⟨qp, pt, hq1, hq2, hp1, hp2⟩
        · subst hop
          rw [heq] at h1
          rw [show parseOperator uid2 ("qb") (jsString a) ("$regex") v =
              opRegex uid2 ("qb") (jsString a) ("regex") v from rfl] at h2
          cases v <;>
            first
              | (rename_i s
                 obtain ⟨qp, pt, hq1, hp1, hgen⟩ := opRegex_renders _ _ _ _ _ _ h1
                 obtain ⟨hq2, hp2⟩ := hgen uid2 f2 h2
                 exact ⟨qp, pt, hq1, hq2, hp1, hp2⟩)
              | (exfalso; simp [opRegex] at h1)
        · subst hop
          rw [heq] at h1
          rw [show parseOperator uid2 ("qb") (jsString a) ("$notRegex") v =
              opNotRegex uid2 ("qb") (jsString a) ("notRegex") v from rfl] at h2
          cases v <;>
            first
              | (rename_i s
                 obtain ⟨qp, pt, hq1, hp1, hgen⟩ := opNotRegex_renders _ _ _ _ _ _ h1
                 obtain ⟨hq2, hp2⟩ := hgen uid2 f2 h2
                 exact ⟨qp, pt, hq1, hq2, hp1, hp2⟩)
              | (exfalso; simp [opNotRegex] at h1)
        · subst hop
          rw [heq] at h1
          rw [show parseOperator uid2 ("qb") (jsString a) ("$regexi") v =
              opRegexi uid2 ("qb") (jsString a) ("regexi") v from rfl] at h2
          cases v <;>
            first
              | (rename_i s
                 obtain ⟨qp, pt, hq1, hp1, hgen⟩ := opRegexi_renders _ _ _ _ _ _ h1
                 obtain ⟨hq2, hp2⟩ := hgen uid2 f2 h2
                 exact ⟨qp, pt, hq1, hq2, hp1, hp2⟩)
              | (exfalso; simp [opRegexi] at h1)
        · subst hop
          rw [heq] at h1
          rw [show parseOperator uid2 ("qb") (jsString a) ("$notRegexi") v =
              opNotRegexi uid2 ("qb") (jsString a) ("notRegexi") v from rfl] at h2
          cases v <;>
            first
              | (rename_i s
                 obtain ⟨qp, pt, hq1, hp1, hgen⟩ := opNotRegexi_renders _ _ _ _ _ _ h1
                 obtain ⟨hq2, hp2⟩ := hgen uid2 f2 h2
                 exact ⟨qp, pt, hq1, hq2, hp1, hp2⟩)
              | (exfalso; simp [opNotRegexi] at h1)
        · subst hop
          rw [heq] at h1
          rw [show parseOperator uid2 ("qb") (jsString a) ("$jsonContains") v =
              opJsonContains uid2 ("qb") (jsString a) ("jsonContains") v from rfl] at h2
          obtain ⟨qp, pt, hq1, hp1, hgen⟩ := opJsonContains_renders _ _ _ _ _ _ h1
          obtain ⟨hq2, hp2⟩ := hgen uid2 f2 h2
          exact ⟨qp, pt, hq1, hq2, hp1, hp2⟩
        · subst hop
          rw [heq] at h1
          rw [show parseOperator uid2 ("qb") (jsString a) ("$jsonContained") v =
              opJsonContained uid2 ("qb") (jsString a) ("jsonContained") v from rfl] at h2
          obtain ⟨qp, pt, hq1, hp1, hgen⟩ := opJsonContained_renders _ _ _ _ _ _ h1
          obtain ⟨hq2, hp2⟩ := hgen uid2 f2 h2
          exact ⟨qp, pt, hq1, hq2, hp1, hp2⟩
        · subst hop
          rw [heq] at h1
          rw [show parseOperator uid2 ("qb") (jsString a) ("$jsonEquals") v =
              opJsonEquals uid2 ("qb") (jsString a) ("jsonEquals") v from rfl] at h2
          obtain ⟨qp, pt, hq1, hp1, hgen⟩ := opJsonEquals_renders _ _ _ _ _ _ h1
          obtain ⟨hq2, hp2⟩ := hgen uid2 f2 h2
          exact ⟨qp, pt, hq1, hq2, hp1, hp2⟩
        · subst hop
          rw [heq] at h1
          rw [show parseOperator uid2 ("qb") (jsString a) ("$jsonHasKey") v =
              opJsonHasKey uid2 ("qb") (jsString a) ("jsonHasKey") v from rfl] at h2
          obtain ⟨qp, pt, hq1, hp1, hgen⟩ := opJsonHasKey_renders _ _ _ _ _ _ h1
          obtain ⟨hq2, hp2⟩ := hgen uid2 f2 h2
          exact ⟨qp, pt, hq1, hq2, hp1, hp2⟩
        · rw [heq] at h1
          exact Except.noConfusion h1
    · have e1 : parseAfterValidation uid1 ("qb") a (.obj kvs) =
          .error ("CONDITION_OBJECT_MUST_HAVE_EXACTLY_ONE_KEY") := by
        simp [parseAfterValidation, JSVal.typeofObject, JSVal.isArray, JSVal.jsEntries, hlen]
      rw [e1] at h1
      exact Except.noConfusion h1

/-- Witness for claim C7 at a concrete input: the two runs of the same $gte
condition under the ids u1 and u2 share a template. -/
theorem claim_C7_witness :
    ∃ (qp : List String) (pt : Option (List (String × JSVal))),
      ("f >= :u1_gte_f" : String) = renderParts ("u1") qp ∧
      ("f >= :u2_gte_f" : String) = renderParts ("u2") qp ∧
      (some [(("u1_gte_f"), JSVal.num 10)] : Option (List (String × JSVal))) =
        renderNames ("u1") pt ∧
      (some [(("u2_gte_f"), JSVal.num 10)] : Option (List (String × JSVal))) =
        renderNames ("u2") pt :=
  claim_C7_deterministic ("u1") ("u2") (.str ("f")) (.obj [(("$gte"), .num 10)])
    ⟨"f >= :u1_gte_f", some [(("u1_gte_f"), .num 10)]⟩
    ⟨"f >= :u2_gte_f", some [(("u2_gte_f"), .num 10)]⟩ rfl rfl

/-- The composer only ever appends to the clause sink: whatever the tree and
whether or not the walk fails, the sink passed in is a prefix of the sink in
the result - clauses already merged are never removed or altered, so there
is no rollback on failure.  Stated jointly for the field loop, the nested
forest loop and the single-tree recursion. -/
theorem compose_sink_monotone (uids : Nat → String) :
    (∀ (i : Nat) (sink : List SinkEntry) (method : String)
       (entries : List (String × JSVal)) (baseAlias : String),
      ∃ d, (composeEntries uids i sink method entries baseAlias).2.1 = sink ++ d) ∧
    (∀ (i : Nat) (sink : List SinkEntry) (method : String)
       (ts : List JSVal) (baseAlias : String),
      ∃ d, (composeForest uids i sink method ts baseAlias).2.1 = sink ++ d) ∧
    (∀ (i : Nat) (sink : List SinkEntry) (method : String)
       (t : JSVal) (baseAlias : String),
      ∃ d, (composeTree uids i sink method t baseAlias).2.1 = sink ++ d) := by
  refine composeEntries.mutual_induct uids
    (fun i sink method entries baseAlias =>
      ∃ d, (composeEntries uids i sink method entries baseAlias).2.1 = sink ++ d)
    (fun i sink method ts baseAlias =>
      ∃ d, (composeForest uids i sink method ts baseAlias).2.1 = sink ++ d)
    (fun i sink method t baseAlias =>
      ∃ d, (composeTree uids i sink method t baseAlias).2.1 = sink ++ d)
    ?_ ?_ ?_ ?_ ?_ ?_ ?_ ?_ ?_ ?_ ?_ ?_
  · intro i sink method baseAlias
    refine ⟨[], ?_⟩
    rw [composeEntries.eq_def]
    simp
  · intro i sink method baseAlias field rest hor xs j innerSink hf ih2 ih1
    obtain ⟨d, hd⟩ := ih1
    refine ⟨SinkEntry.group method innerSink :: d, ?_⟩
    rcases hor with h | h <;> subst h
    · rw [show (if h : ("$and" : String) = "$and" then ("andWhere" : String) else "orWhere") =
          "andWhere" from rfl] at hf
      rw [composeEntries.eq_def]
      dsimp only
      rw [if_pos (Or.inl rfl)]
      rw [show (if ("$and" : String) = "$and" then ("andWhere" : String) else "orWhere") =
          "andWhere" from rfl]
      rw [hf]
      exact hd.trans (by simp)
    · rw [show (if h : ("$or" : String) = "$and" then ("andWhere" : String) else "orWhere") =
          "orWhere" from rfl] at hf
      rw [composeEntries.eq_def]
      dsimp only
      rw [if_pos (Or.inr rfl)]
      rw [show (if ("$or" : String) = "$and" then ("andWhere" : String) else "orWhere") =
          "orWhere" from rfl]
      rw [hf]
      exact hd.trans (by simp)
  · intro i sink method baseAlias field rest hor xs j fst e hf ih2
    refine ⟨[], ?_⟩
    rcases hor with h | h <;> subst h
    · rw [show (if h : ("$and" : String) = "$and" then ("andWhere" : String) else "orWhere") =
          "andWhere" from rfl] at hf
      rw [composeEntries.eq_def]
      dsimp only
      rw [if_pos (Or.inl rfl)]
      rw [show (if ("$and" : String) = "$and" then ("andWhere" : String) else "orWhere") =
          "andWhere" from rfl]
      rw [hf]
      simp
    · rw [show (if h : ("$or" : String) = "$and" then ("andWhere" : String) else "orWhere") =
          "orWhere" from rfl] at hf
      rw [composeEntries.eq_def]
      dsimp only
      rw [if_pos (Or.inr rfl)]
      rw [show (if ("$or" : String) = "$and" then ("andWhere" : String) else "orWhere") =
          "orWhere" from rfl]
      rw [hf]
      simp
  · intro i sink method baseAlias field condition rest hor hno
    refine ⟨[], ?_⟩
    rw [composeEntries.eq_def]
    dsimp only
    rw [if_pos hor]
    cases condition with
    | arr xs => exact (hno xs rfl).elim
    | str s => simp
    | num n => simp
    | bool b => simp
    | date t => simp
    | null => simp
    | undef => simp
    | obj kvs => simp
  · intro i sink method baseAlias field condition rest hnor f hp ih
    obtain ⟨d, hd⟩ := ih
    refine ⟨SinkEntry.clause method f.query f.parameters :: d, ?_⟩
    rw [composeEntries.eq_def]
    dsimp only
    rw [if_neg hnor, hp]
    exact hd.trans (by simp)
  · intro i sink method baseAlias field condition rest hnor op hp ih
    obtain ⟨d, hd⟩ := ih
    refine ⟨d, ?_⟩
    rw [composeEntries.eq_def]
    dsimp only
    rw [if_neg hnor, hp]
    exact hd
  · intro i sink method baseAlias field condition rest hnor e hp
    refine ⟨[], ?_⟩
    rw [composeEntries.eq_def]
    dsimp only
    rw [if_neg hnor, hp]
    simp
  · intro i sink method baseAlias
    refine ⟨[], ?_⟩
    rw [composeForest.eq_def]
    simp
  · intro i sink method baseAlias t rest j sink2 ht ih3 ih2
    obtain ⟨d2, hd2⟩ := ih3
    obtain ⟨d, hd⟩ := ih2
    rw [ht] at hd2
    dsimp only at hd2
    refine ⟨d2 ++ d, ?_⟩
    rw [composeForest.eq_def]
    dsimp only
    rw [ht]
    exact hd.trans (by rw [hd2, List.append_assoc])
  · intro i sink method baseAlias t rest hno ih3
    obtain ⟨d2, hd2⟩ := ih3
    rcases hteq : composeTree uids i sink method t baseAlias with ⟨j, s2, err⟩
    rw [hteq] at hd2
    dsimp only at hd2
    cases err with
    | none => exact (hno j s2 hteq).elim
    | some e =>
      refine ⟨d2, ?_⟩
      rw [composeForest.eq_def]
      dsimp only
      rw [hteq]
      exact hd2
  · intro i sink method baseAlias kvs ih1
    obtain ⟨d, hd⟩ := ih1
    refine ⟨d, ?_⟩
    rw [composeTree.eq_def]
    exact hd
  · intro i sink method t baseAlias hno
    refine ⟨[], ?_⟩
    rw [composeTree.eq_def]
    cases t with
    | obj kvs => exact (hno kvs rfl).elim
    | str s => simp
    | num n => simp
    | bool b => simp
    | date t => simp
    | null => simp
    | undef => simp
    | arr xs => simp

/-- Claim C1, as stated, is false on the code: when compiling the filter
tree with fields a and b where the condition of b fails, the call does
raise a wrapped error, but the clause sink is not left unchanged - the
clause compiled for the earlier field a has already been merged into it. -/
theorem claim_C1_counterexample :
    applyWhereConditionsQB (fun _ => ("u")) [] ("andWhere")
        (.obj [(("a"), .num 1), (("b"), .null)]) ("t") =
      ([SinkEntry.clause ("andWhere") ("t.a = :u_eq_t.a") (some [(("u_eq_t.a"), .num 1)])],
        some ("Error parsing condition for field \"b\": CONDITION_CANNOT_BE_UNDEFINED_OR_NULL")) ∧
    [SinkEntry.clause ("andWhere") ("t.a = :u_eq_t.a") (some [(("u_eq_t.a"), .num 1)])] ≠
      ([] : List SinkEntry) := by
  constructor
  · have h1 : resolveFieldAlias ("t") ("a") = "t.a" := rfl
    have h2 : resolveFieldAlias ("t") ("b") = "t.b" := rfl
    have h3 : parseCondition ("u") ("qb") (.str ("t.a")) (.num 1) =
        .ok (.qbRes ⟨"t.a = :u_eq_t.a", some [(("u_eq_t.a"), .num 1)]⟩) := rfl
    have h4 : parseCondition ("u") ("qb") (.str ("t.b")) .null =
        .error ("CONDITION_CANNOT_BE_UNDEFINED_OR_NULL") := rfl
    simp [applyWhereConditionsQB, composeTree, composeEntries, h1, h2, h3, h4]
  · simp

/-- Claim C1 (amended): compilation of a filter tree is not atomic, but the
sink degrades predictably: (a) the composer only ever appends to the clause
sink, so on failure the original sink contents and every clause merged for
an earlier field remain in place (no rollback, no clearing); and (b) when a
field's condition fails to compile, the loop stops there and raises the
error wrapped with the offending field name, leaving the sink exactly as
accumulated so far. -/
theorem claim_C1_amended (uids : Nat → String) :
    (∀ (sink : List SinkEntry) (method : String) (conditions : JSVal) (baseAlias : String),
      ∃ delta, (applyWhereConditionsQB uids sink method conditions baseAlias).1 =
        sink ++ delta) ∧
    (∀ (i : Nat) (sink : List SinkEntry) (method field : String) (condition : JSVal)
       (rest : List (String × JSVal)) (baseAlias e : String),
      ¬(field = "$and" ∨ field = "$or") →
      parseCondition (uids i) ("qb") (.str (resolveFieldAlias baseAlias field)) condition =
        .error e →
      composeEntries uids i sink method ((field, condition) :: rest) baseAlias =
        (i + 1, sink, some ("Error parsing condition for field \"" ++ field ++ "\": " ++ e))) := by
  constructor
  · intro sink method conditions baseAlias
    exact (compose_sink_monotone uids).2.2 0 sink method conditions baseAlias
  · intro i sink method field condition rest baseAlias e hnor hp
    rw [composeEntries.eq_def]
    dsimp only
    rw [if_neg hnor, hp]

/-- Witness for the amended claim C1 at a concrete input: with the clause of
an earlier field already in the sink, the failing field b stops the loop,
wraps the error with the field name, and leaves the accumulated sink as
is. -/
theorem claim_C1_witness :
    composeEntries (fun _ => ("u")) 0
        [SinkEntry.clause ("andWhere") ("t.a = :u_eq_t.a") (some [(("u_eq_t.a"), .num 1)])]
        ("andWhere") [(("b"), JSVal.null)] ("t") =
      (1, [SinkEntry.clause ("andWhere") ("t.a = :u_eq_t.a") (some [(("u_eq_t.a"), .num 1)])],
        some ("Error parsing condition for field \"b\": CONDITION_CANNOT_BE_UNDEFINED_OR_NULL")) :=
  (claim_C1_amended (fun _ => ("u"))).2 0
    [SinkEntry.clause ("andWhere") ("t.a = :u_eq_t.a") (some [(("u_eq_t.a"), .num 1)])]
    ("andWhere") ("b") JSVal.null [] ("t")
    ("CONDITION_CANNOT_BE_UNDEFINED_OR_NULL") (by decide) rfl
